import Mathlib

set_option autoImplicit false

/-!
Verification development for the batman-adv scoped configuration-option
netlink subsystem (net/batman-adv/netlink_cfg.c / netlink_cfg.h).

The definitions below are a shallow embedding of that C source.  Machine
integers are modelled as `Nat` with explicit `% 2^32` truncation where a
32-bit store occurs; fallible C functions returning `0` or a negative errno
become `Except Err _`; netlink messages become explicit attribute lists with
a unit-cost capacity model (each put consumes one slot of the message's
capacity).  Constants that live in headers outside the reviewed tree
(main.h, log.h, linux headers) are defined with a comment naming their
origin; all conditionally compiled options (`CONFIG_BATMAN_ADV_*`) are taken
as present, which yields the full descriptor tables.
-/

/-- Decidable equality for `Except`, used so that concrete runs of the
embedded functions can be checked by `decide`. -/
instance {ε α : Type} [DecidableEq ε] [DecidableEq α] : DecidableEq (Except ε α) :=
  fun a b =>
    match a, b with
    | .ok x, .ok y => decidable_of_iff (x = y) (by simp)
    | .ok _, .error _ => .isFalse (by simp)
    | .error _, .ok _ => .isFalse (by simp)
    | .error x, .error y => decidable_of_iff (x = y) (by simp)

namespace Batadv

/-- Errno values used by netlink_cfg.c, as an inductive error type
(`-EINVAL`, `-ENODEV`, `-ENOENT`, `-EOPNOTSUPP`, `-ERANGE`, `-EMSGSIZE`,
`-ENOMEM`). -/
inductive Err where
  | EINVAL
  | ENODEV
  | ENOENT
  | EOPNOTSUPP
  | ERANGE
  | EMSGSIZE
  | ENOMEM
deriving DecidableEq, Repr

/-- Netlink attribute policy types used by the option tables
(`NLA_FLAG`, `NLA_U8`, `NLA_U16`, `NLA_U32`, `NLA_NUL_STRING`). -/
inductive NlaType where
  | NLA_FLAG
  | NLA_U8
  | NLA_U16
  | NLA_U32
  | NLA_NUL_STRING
deriving DecidableEq, Repr

/-- Numeric tag of a netlink attribute type, as in include/net/netlink.h;
used when the option type is serialized as a u8 attribute. -/
def NlaType.code : NlaType → Nat
  | .NLA_U8 => 1
  | .NLA_U16 => 2
  | .NLA_U32 => 3
  | .NLA_FLAG => 6
  | .NLA_NUL_STRING => 10

/-- Variant value storage mirroring `union batadv_config_value`; the active
member is always selected externally by the descriptor's declared type.  A
string value is the byte content before the NUL terminator. -/
inductive ConfigValue where
  | vu8 (n : Nat)
  | vu16 (n : Nat)
  | vu32 (n : Nat)
  | vbool (b : Bool)
  | str (s : List Nat)
deriving DecidableEq, Repr

/-- Read the `vbool` member (meaningful only when the descriptor type is
`NLA_FLAG`; every call site guarantees the matching member was written). -/
def ConfigValue.asBool : ConfigValue → Bool
  | .vbool b => b
  | _ => false

/-- Read the `vu8` member. -/
def ConfigValue.asU8 : ConfigValue → Nat
  | .vu8 n => n
  | _ => 0

/-- Read the `vu16` member. -/
def ConfigValue.asU16 : ConfigValue → Nat
  | .vu16 n => n
  | _ => 0

/-- Read the `vu32` member. -/
def ConfigValue.asU32 : ConfigValue → Nat
  | .vu32 n => n
  | _ => 0

/-- Read the `string` member. -/
def ConfigValue.asStr : ConfigValue → List Nat
  | .str s => s
  | _ => []

/-- Well-formedness of a decoded value for a declared netlink type: exactly
the shapes `batadv_option_value_get_from_info` can produce. -/
def ConfigValue.wfFor : NlaType → ConfigValue → Bool
  | .NLA_FLAG, .vbool _ => true
  | .NLA_U8, .vu8 n => n < 2 ^ 8
  | .NLA_U16, .vu16 n => n < 2 ^ 16
  | .NLA_U32, .vu32 n => n < 2 ^ 32
  | .NLA_NUL_STRING, .str s => s.length ≤ 31 && !s.contains 0
  | _, _ => false

/-- BATADV_TQ_MAX_VALUE, from main.h (not under src/). -/
def BATADV_TQ_MAX_VALUE : Nat := 255

/-- BATADV_JITTER, from main.h (not under src/). -/
def BATADV_JITTER : Nat := 20

/-- BATADV_DBG_ALL log level mask, from log.h (not under src/). -/
def BATADV_DBG_ALL : Nat := 255

/-- INT_MAX of the C `int` type. -/
def INT_MAX : Nat := 2 ^ 31 - 1

/-- BATADV_VLAN_HAS_TAG = BIT(15), from uapi/linux/batadv_packet.h. -/
def BATADV_VLAN_HAS_TAG : Nat := 32768

/-- BATADV_NO_FLAGS, from main.h (not under src/). -/
def BATADV_NO_FLAGS : Nat := 0

/-- VLAN_VID_MASK = 0x0fff, from linux/if_vlan.h. -/
def VLAN_VID_MASK : Nat := 4095

/-- Gateway modes stored in `bat_priv->gw.mode` (enum batadv_gw_modes). -/
inductive GwMode where
  | off
  | client
  | server
deriving DecidableEq, Repr

/-- ASCII bytes of BATADV_GW_MODE_OFF_NAME ("off"), from main.h (not under
src/). -/
def BATADV_GW_MODE_OFF_NAME : List Nat := [111, 102, 102]

/-- ASCII bytes of BATADV_GW_MODE_CLIENT_NAME ("client"), from main.h (not
under src/). -/
def BATADV_GW_MODE_CLIENT_NAME : List Nat := [99, 108, 105, 101, 110, 116]

/-- ASCII bytes of BATADV_GW_MODE_SERVER_NAME ("server"), from main.h (not
under src/). -/
def BATADV_GW_MODE_SERVER_NAME : List Nat := [115, 101, 114, 118, 101, 114]

/-- One `struct batadv_softif_vlan`: its vlan id (with the HAS_TAG marker
bit for tagged vlans, BATADV_NO_FLAGS for the untagged one) and the fields
the option subsystem touches. -/
structure SoftifVlan where
  vid : Nat
  ap_isolation : Bool
deriving DecidableEq, Repr

/-- Presence of the gateway hooks in `bat_priv->algo_ops->gw` (non-NULL
function pointers). -/
structure GwAlgoOps where
  has_get_best_gw_node : Bool
  has_is_eligible : Bool
  has_store_sel_class : Bool
deriving DecidableEq, Repr

/-- The slice of `struct batadv_priv` that the configuration options read
and write, plus the soft interface's ifindex (used by the notifiers) and
the vlan list reachable through `batadv_softif_vlan_get`. -/
structure BatPriv where
  aggregated_ogms : Bool
  bonding : Bool
  bridge_loop_avoidance : Bool
  distributed_arp_table : Bool
  fragmentation : Bool
  multicast_mode : Bool
  network_coding : Bool
  gw_bandwidth_down : Nat
  gw_bandwidth_up : Nat
  gw_mode : GwMode
  gw_sel_class : Nat
  hop_penalty : Nat
  log_level : Nat
  isolation_mark : Nat
  isolation_mark_mask : Nat
  orig_interval : Nat
  algo_ops : GwAlgoOps
  vlans : List SoftifVlan
  soft_ifindex : Nat
deriving DecidableEq, Repr

/-- The slice of `struct batadv_hard_iface` that the hardif options touch:
its net_dev's ifindex, the two BATMAN_V knobs, and the ifindex of the soft
interface it is attached to (`soft_iface` pointer, `none` for NULL;
ifindexes are unique per namespace, so pointer identity is modelled by
ifindex identity). -/
structure HardIface where
  ifindex : Nat
  elp_interval : Nat
  throughput_override : Nat
  soft_iface : Option Nat
deriving DecidableEq, Repr

/-- Lookup of `batadv_softif_vlan_get`: find the vlan of @bp with the given
vid (reference acquisition is tracked by the request handlers). -/
def batadv_softif_vlan_get (bp : BatPriv) (vid : Nat) : Option SoftifVlan :=
  bp.vlans.find? (fun v => v.vid == vid)

/-- Replace the first vlan with the given vid by applying @f to it; this is
the effect of mutating the object returned by `batadv_softif_vlan_get`. -/
def updateVlanList (l : List SoftifVlan) (vid : Nat) (f : SoftifVlan → SoftifVlan) :
    List SoftifVlan :=
  match l with
  | [] => []
  | v :: vs => if v.vid == vid then f v :: vs else v :: updateVlanList vs vid f

/-- batadv_option_get_aggregated_ogms. -/
def batadv_option_get_aggregated_ogms (bp : BatPriv) : Except Err ConfigValue :=
  .ok (.vbool bp.aggregated_ogms)

/-- batadv_option_set_aggregated_ogms. -/
def batadv_option_set_aggregated_ogms (bp : BatPriv) (val : ConfigValue) :
    Except Err BatPriv :=
  .ok { bp with aggregated_ogms := val.asBool }

/-- batadv_option_get_ap_isolation (mesh scope): reads the untagged vlan's
flag, failing with -ENOENT when that vlan object is absent. -/
def batadv_option_get_ap_isolation (bp : BatPriv) : Except Err ConfigValue :=
  match batadv_softif_vlan_get bp BATADV_NO_FLAGS with
  | none => .error .ENOENT
  | some vlan => .ok (.vbool vlan.ap_isolation)

/-- batadv_option_set_ap_isolation (mesh scope). -/
def batadv_option_set_ap_isolation (bp : BatPriv) (val : ConfigValue) :
    Except Err BatPriv :=
  match batadv_softif_vlan_get bp BATADV_NO_FLAGS with
  | none => .error .ENOENT
  | some _ =>
      .ok { bp with
            vlans := updateVlanList bp.vlans BATADV_NO_FLAGS
              (fun v => { v with ap_isolation := val.asBool }) }

/-- batadv_option_get_bonding. -/
def batadv_option_get_bonding (bp : BatPriv) : Except Err ConfigValue :=
  .ok (.vbool bp.bonding)

/-- batadv_option_set_bonding. -/
def batadv_option_set_bonding (bp : BatPriv) (val : ConfigValue) :
    Except Err BatPriv :=
  .ok { bp with bonding := val.asBool }

/-- batadv_option_get_bridge_loop_avoidance (CONFIG_BATMAN_ADV_BLA). -/
def batadv_option_get_bridge_loop_avoidance (bp : BatPriv) : Except Err ConfigValue :=
  .ok (.vbool bp.bridge_loop_avoidance)

/-- batadv_option_set_bridge_loop_avoidance; the trailing
`batadv_bla_status_update` call notifies the BLA subsystem and does not
change any state modelled here. -/
def batadv_option_set_bridge_loop_avoidance (bp : BatPriv) (val : ConfigValue) :
    Except Err BatPriv :=
  .ok { bp with bridge_loop_avoidance := val.asBool }

/-- batadv_option_get_distributed_arp_table (CONFIG_BATMAN_ADV_DAT). -/
def batadv_option_get_distributed_arp_table (bp : BatPriv) : Except Err ConfigValue :=
  .ok (.vbool bp.distributed_arp_table)

/-- batadv_option_set_distributed_arp_table; `batadv_dat_status_update` is
an external notification. -/
def batadv_option_set_distributed_arp_table (bp : BatPriv) (val : ConfigValue) :
    Except Err BatPriv :=
  .ok { bp with distributed_arp_table := val.asBool }

/-- batadv_option_get_fragmentation. -/
def batadv_option_get_fragmentation (bp : BatPriv) : Except Err ConfigValue :=
  .ok (.vbool bp.fragmentation)

/-- batadv_option_set_fragmentation; `batadv_update_min_mtu` is an external
notification. -/
def batadv_option_set_fragmentation (bp : BatPriv) (val : ConfigValue) :
    Except Err BatPriv :=
  .ok { bp with fragmentation := val.asBool }

/-- batadv_option_get_gw_bandwidth_down. -/
def batadv_option_get_gw_bandwidth_down (bp : BatPriv) : Except Err ConfigValue :=
  .ok (.vu32 bp.gw_bandwidth_down)

/-- batadv_option_set_gw_bandwidth_down; the stored field is a 32-bit
atomic, hence the truncation. -/
def batadv_option_set_gw_bandwidth_down (bp : BatPriv) (val : ConfigValue) :
    Except Err BatPriv :=
  .ok { bp with gw_bandwidth_down := val.asU32 % 2 ^ 32 }

/-- batadv_option_get_gw_bandwidth_up. -/
def batadv_option_get_gw_bandwidth_up (bp : BatPriv) : Except Err ConfigValue :=
  .ok (.vu32 bp.gw_bandwidth_up)

/-- batadv_option_set_gw_bandwidth_up. -/
def batadv_option_set_gw_bandwidth_up (bp : BatPriv) (val : ConfigValue) :
    Except Err BatPriv :=
  .ok { bp with gw_bandwidth_up := val.asU32 % 2 ^ 32 }

/-- batadv_option_get_gw_mode: unavailable (-EOPNOTSUPP) unless the active
routing algorithm implements the GW API; otherwise renders the mode name. -/
def batadv_option_get_gw_mode (bp : BatPriv) : Except Err ConfigValue :=
  if !bp.algo_ops.has_get_best_gw_node || !bp.algo_ops.has_is_eligible then
    .error .EOPNOTSUPP
  else
    match bp.gw_mode with
    | .client => .ok (.str BATADV_GW_MODE_CLIENT_NAME)
    | .server => .ok (.str BATADV_GW_MODE_SERVER_NAME)
    | .off => .ok (.str BATADV_GW_MODE_OFF_NAME)

/-- batadv_option_set_gw_mode: three sequential strcmp tests starting from
BATADV_GW_MODE_OFF; `batadv_gw_reselect`, `batadv_gw_check_client_stop` and
`batadv_gw_tvlv_container_update` are external calls. -/
def batadv_option_set_gw_mode (bp : BatPriv) (val : ConfigValue) :
    Except Err BatPriv :=
  let t0 : GwMode := .off
  let t1 : GwMode := if val.asStr = BATADV_GW_MODE_OFF_NAME then .off else t0
  let t2 : GwMode := if val.asStr = BATADV_GW_MODE_CLIENT_NAME then .client else t1
  let t3 : GwMode := if val.asStr = BATADV_GW_MODE_SERVER_NAME then .server else t2
  .ok { bp with gw_mode := t3 }

/-- batadv_option_validate_gw_mode: accepts exactly the three mode names. -/
def batadv_option_validate_gw_mode (_bp : BatPriv) (val : ConfigValue) :
    Except Err Unit :=
  if BATADV_GW_MODE_OFF_NAME = val.asStr then .ok ()
  else if BATADV_GW_MODE_CLIENT_NAME = val.asStr then .ok ()
  else if BATADV_GW_MODE_SERVER_NAME = val.asStr then .ok ()
  else .error .EINVAL

/-- batadv_option_get_gw_sel_class: unavailable unless the routing
algorithm implements the GW API. -/
def batadv_option_get_gw_sel_class (bp : BatPriv) : Except Err ConfigValue :=
  if !bp.algo_ops.has_get_best_gw_node || !bp.algo_ops.has_is_eligible then
    .error .EOPNOTSUPP
  else
    .ok (.vu32 bp.gw_sel_class)

/-- batadv_option_set_gw_sel_class; `batadv_gw_reselect` is external. -/
def batadv_option_set_gw_sel_class (bp : BatPriv) (val : ConfigValue) :
    Except Err BatPriv :=
  .ok { bp with gw_sel_class := val.asU32 % 2 ^ 32 }

/-- batadv_option_validate_gw_sel_class: requires the GW API, and a
1..BATADV_TQ_MAX_VALUE range when the algorithm has no store_sel_class
hook. -/
def batadv_option_validate_gw_sel_class (bp : BatPriv) (val : ConfigValue) :
    Except Err Unit :=
  if !bp.algo_ops.has_get_best_gw_node || !bp.algo_ops.has_is_eligible then
    .error .EOPNOTSUPP
  else if !bp.algo_ops.has_store_sel_class then
    if val.asU32 < 1 || val.asU32 > BATADV_TQ_MAX_VALUE then .error .ERANGE
    else .ok ()
  else .ok ()

/-- batadv_option_get_hop_penalty. -/
def batadv_option_get_hop_penalty (bp : BatPriv) : Except Err ConfigValue :=
  .ok (.vu32 bp.hop_penalty)

/-- batadv_option_set_hop_penalty. -/
def batadv_option_set_hop_penalty (bp : BatPriv) (val : ConfigValue) :
    Except Err BatPriv :=
  .ok { bp with hop_penalty := val.asU32 % 2 ^ 32 }

/-- batadv_option_validate_hop_penalty: rejects values above
BATADV_TQ_MAX_VALUE with -ERANGE. -/
def batadv_option_validate_hop_penalty (_bp : BatPriv) (val : ConfigValue) :
    Except Err Unit :=
  if val.asU32 > BATADV_TQ_MAX_VALUE then .error .ERANGE else .ok ()

/-- batadv_option_get_log_level (CONFIG_BATMAN_ADV_DEBUG). -/
def batadv_option_get_log_level (bp : BatPriv) : Except Err ConfigValue :=
  .ok (.vu32 bp.log_level)

/-- batadv_option_set_log_level. -/
def batadv_option_set_log_level (bp : BatPriv) (val : ConfigValue) :
    Except Err BatPriv :=
  .ok { bp with log_level := val.asU32 % 2 ^ 32 }

/-- batadv_option_validate_log_level. -/
def batadv_option_validate_log_level (_bp : BatPriv) (val : ConfigValue) :
    Except Err Unit :=
  if val.asU32 > BATADV_DBG_ALL then .error .ERANGE else .ok ()

/-- batadv_option_get_multicast_mode (CONFIG_BATMAN_ADV_MCAST). -/
def batadv_option_get_multicast_mode (bp : BatPriv) : Except Err ConfigValue :=
  .ok (.vbool bp.multicast_mode)

/-- batadv_option_set_multicast_mode. -/
def batadv_option_set_multicast_mode (bp : BatPriv) (val : ConfigValue) :
    Except Err BatPriv :=
  .ok { bp with multicast_mode := val.asBool }

/-- batadv_option_get_network_coding (CONFIG_BATMAN_ADV_NC). -/
def batadv_option_get_network_coding (bp : BatPriv) : Except Err ConfigValue :=
  .ok (.vbool bp.network_coding)

/-- batadv_option_set_network_coding; `batadv_nc_status_update` is
external. -/
def batadv_option_set_network_coding (bp : BatPriv) (val : ConfigValue) :
    Except Err BatPriv :=
  .ok { bp with network_coding := val.asBool }

/-- batadv_option_get_isolation_mark. -/
def batadv_option_get_isolation_mark (bp : BatPriv) : Except Err ConfigValue :=
  .ok (.vu32 bp.isolation_mark)

/-- batadv_option_set_isolation_mark. -/
def batadv_option_set_isolation_mark (bp : BatPriv) (val : ConfigValue) :
    Except Err BatPriv :=
  .ok { bp with isolation_mark := val.asU32 % 2 ^ 32 }

/-- batadv_option_get_isolation_mask. -/
def batadv_option_get_isolation_mask (bp : BatPriv) : Except Err ConfigValue :=
  .ok (.vu32 bp.isolation_mark_mask)

/-- batadv_option_set_isolation_mask. -/
def batadv_option_set_isolation_mask (bp : BatPriv) (val : ConfigValue) :
    Except Err BatPriv :=
  .ok { bp with isolation_mark_mask := val.asU32 % 2 ^ 32 }

/-- batadv_option_get_orig_interval. -/
def batadv_option_get_orig_interval (bp : BatPriv) : Except Err ConfigValue :=
  .ok (.vu32 bp.orig_interval)

/-- batadv_option_set_orig_interval. -/
def batadv_option_set_orig_interval (bp : BatPriv) (val : ConfigValue) :
    Except Err BatPriv :=
  .ok { bp with orig_interval := val.asU32 % 2 ^ 32 }

/-- batadv_option_validate_orig_interval: requires
2 * BATADV_JITTER ≤ value ≤ INT_MAX. -/
def batadv_option_validate_orig_interval (_bp : BatPriv) (val : ConfigValue) :
    Except Err Unit :=
  if val.asU32 < 2 * BATADV_JITTER || val.asU32 > INT_MAX then .error .ERANGE
  else .ok ()

/-- batadv_option_hardif_get_elp_interval (CONFIG_BATMAN_ADV_BATMAN_V). -/
def batadv_option_hardif_get_elp_interval (hif : HardIface) : Except Err ConfigValue :=
  .ok (.vu32 hif.elp_interval)

/-- batadv_option_hardif_set_elp_interval. -/
def batadv_option_hardif_set_elp_interval (hif : HardIface) (val : ConfigValue) :
    Except Err HardIface :=
  .ok { hif with elp_interval := val.asU32 % 2 ^ 32 }

/-- batadv_option_hardif_get_tp_override (CONFIG_BATMAN_ADV_BATMAN_V). -/
def batadv_option_hardif_get_tp_override (hif : HardIface) : Except Err ConfigValue :=
  .ok (.vu32 hif.throughput_override)

/-- batadv_option_hardif_set_tp_override. -/
def batadv_option_hardif_set_tp_override (hif : HardIface) (val : ConfigValue) :
    Except Err HardIface :=
  .ok { hif with throughput_override := val.asU32 % 2 ^ 32 }

/-- batadv_option_vlan_get_ap_isolation: reads the resolved vlan object. -/
def batadv_option_vlan_get_ap_isolation (vlan : SoftifVlan) : Except Err ConfigValue :=
  .ok (.vbool vlan.ap_isolation)

/-- batadv_option_vlan_set_ap_isolation. -/
def batadv_option_vlan_set_ap_isolation (vlan : SoftifVlan) (val : ConfigValue) :
    Except Err SoftifVlan :=
  .ok { vlan with ap_isolation := val.asBool }

/-- One `struct batadv_option` entry.  `Ctx` is the type of the resolved
scope context passed through `ext_arg` (`Unit` for the mesh scope,
`HardIface` for the hardif scope, `SoftifVlan` for the vlan scope); `set`
returns the updated priv data and context. -/
structure BatadvOption (Ctx : Type) where
  name : String
  type : NlaType
  get : BatPriv → Ctx → Except Err ConfigValue
  set : BatPriv → Ctx → ConfigValue → Except Err (BatPriv × Ctx)
  validate : Option (BatPriv → Ctx → ConfigValue → Except Err Unit)

/-- The `softif_options` entry for "aggregated_ogms". -/
def optAggregatedOgms : BatadvOption Unit := {
  name := "aggregated_ogms", type := .NLA_FLAG,
  get := fun bp _ => batadv_option_get_aggregated_ogms bp,
  set := fun bp _ v => (batadv_option_set_aggregated_ogms bp v).map (fun b => (b, ())),
  validate := none }

/-- The `softif_options` entry for "ap_isolation". -/
def optApIsolation : BatadvOption Unit := {
  name := "ap_isolation", type := .NLA_FLAG,
  get := fun bp _ => batadv_option_get_ap_isolation bp,
  set := fun bp _ v => (batadv_option_set_ap_isolation bp v).map (fun b => (b, ())),
  validate := none }

/-- The `softif_options` entry for "bonding". -/
def optBonding : BatadvOption Unit := {
  name := "bonding", type := .NLA_FLAG,
  get := fun bp _ => batadv_option_get_bonding bp,
  set := fun bp _ v => (batadv_option_set_bonding bp v).map (fun b => (b, ())),
  validate := none }

/-- The `softif_options` entry for "bridge_loop_avoidance". -/
def optBridgeLoopAvoidance : BatadvOption Unit := {
  name := "bridge_loop_avoidance", type := .NLA_FLAG,
  get := fun bp _ => batadv_option_get_bridge_loop_avoidance bp,
  set := fun bp _ v => (batadv_option_set_bridge_loop_avoidance bp v).map (fun b => (b, ())),
  validate := none }

/-- The `softif_options` entry for "distributed_arp_table". -/
def optDistributedArpTable : BatadvOption Unit := {
  name := "distributed_arp_table", type := .NLA_FLAG,
  get := fun bp _ => batadv_option_get_distributed_arp_table bp,
  set := fun bp _ v => (batadv_option_set_distributed_arp_table bp v).map (fun b => (b, ())),
  validate := none }

/-- The `softif_options` entry for "fragmentation". -/
def optFragmentation : BatadvOption Unit := {
  name := "fragmentation", type := .NLA_FLAG,
  get := fun bp _ => batadv_option_get_fragmentation bp,
  set := fun bp _ v => (batadv_option_set_fragmentation bp v).map (fun b => (b, ())),
  validate := none }

/-- The `softif_options` entry for "gw_bandwidth_down". -/
def optGwBandwidthDown : BatadvOption Unit := {
  name := "gw_bandwidth_down", type := .NLA_U32,
  get := fun bp _ => batadv_option_get_gw_bandwidth_down bp,
  set := fun bp _ v => (batadv_option_set_gw_bandwidth_down bp v).map (fun b => (b, ())),
  validate := none }

/-- The `softif_options` entry for "gw_bandwidth_up". -/
def optGwBandwidthUp : BatadvOption Unit := {
  name := "gw_bandwidth_up", type := .NLA_U32,
  get := fun bp _ => batadv_option_get_gw_bandwidth_up bp,
  set := fun bp _ v => (batadv_option_set_gw_bandwidth_up bp v).map (fun b => (b, ())),
  validate := none }

/-- The `softif_options` entry for "gw_mode". -/
def optGwMode : BatadvOption Unit := {
  name := "gw_mode", type := .NLA_NUL_STRING,
  get := fun bp _ => batadv_option_get_gw_mode bp,
  set := fun bp _ v => (batadv_option_set_gw_mode bp v).map (fun b => (b, ())),
  validate := some (fun bp _ v => batadv_option_validate_gw_mode bp v) }

/-- The `softif_options` entry for "gw_sel_class". -/
def optGwSelClass : BatadvOption Unit := {
  name := "gw_sel_class", type := .NLA_U32,
  get := fun bp _ => batadv_option_get_gw_sel_class bp,
  set := fun bp _ v => (batadv_option_set_gw_sel_class bp v).map (fun b => (b, ())),
  validate := some (fun bp _ v => batadv_option_validate_gw_sel_class bp v) }

/-- The `softif_options` entry for "hop_penalty". -/
def optHopPenalty : BatadvOption Unit := {
  name := "hop_penalty", type := .NLA_U32,
  get := fun bp _ => batadv_option_get_hop_penalty bp,
  set := fun bp _ v => (batadv_option_set_hop_penalty bp v).map (fun b => (b, ())),
  validate := some (fun bp _ v => batadv_option_validate_hop_penalty bp v) }

/-- The `softif_options` entry for "log_level". -/
def optLogLevel : BatadvOption Unit := {
  name := "log_level", type := .NLA_U32,
  get := fun bp _ => batadv_option_get_log_level bp,
  set := fun bp _ v => (batadv_option_set_log_level bp v).map (fun b => (b, ())),
  validate := some (fun bp _ v => batadv_option_validate_log_level bp v) }

/-- The `softif_options` entry for "multicast_mode". -/
def optMulticastMode : BatadvOption Unit := {
  name := "multicast_mode", type := .NLA_FLAG,
  get := fun bp _ => batadv_option_get_multicast_mode bp,
  set := fun bp _ v => (batadv_option_set_multicast_mode bp v).map (fun b => (b, ())),
  validate := none }

/-- The `softif_options` entry for "network_coding". -/
def optNetworkCoding : BatadvOption Unit := {
  name := "network_coding", type := .NLA_FLAG,
  get := fun bp _ => batadv_option_get_network_coding bp,
  set := fun bp _ v => (batadv_option_set_network_coding bp v).map (fun b => (b, ())),
  validate := none }

/-- The `softif_options` entry for "isolation_mark". -/
def optIsolationMark : BatadvOption Unit := {
  name := "isolation_mark", type := .NLA_U32,
  get := fun bp _ => batadv_option_get_isolation_mark bp,
  set := fun bp _ v => (batadv_option_set_isolation_mark bp v).map (fun b => (b, ())),
  validate := none }

/-- The `softif_options` entry for "isolation_mask". -/
def optIsolationMask : BatadvOption Unit := {
  name := "isolation_mask", type := .NLA_U32,
  get := fun bp _ => batadv_option_get_isolation_mask bp,
  set := fun bp _ v => (batadv_option_set_isolation_mask bp v).map (fun b => (b, ())),
  validate := none }

/-- The `softif_options` entry for "orig_interval". -/
def optOrigInterval : BatadvOption Unit := {
  name := "orig_interval", type := .NLA_U32,
  get := fun bp _ => batadv_option_get_orig_interval bp,
  set := fun bp _ v => (batadv_option_set_orig_interval bp v).map (fun b => (b, ())),
  validate := some (fun bp _ v => batadv_option_validate_orig_interval bp v) }

/-- The `softif_options` table, in source order, with every conditionally
compiled entry present. -/
def softif_options : List (BatadvOption Unit) := [
  optAggregatedOgms, optApIsolation, optBonding, optBridgeLoopAvoidance, optDistributedArpTable, optFragmentation, optGwBandwidthDown, optGwBandwidthUp, optGwMode, optGwSelClass, optHopPenalty, optLogLevel, optMulticastMode, optNetworkCoding, optIsolationMark, optIsolationMask, optOrigInterval]

/-- The `hardif_options` entry for "elp_interval". -/
def hardifOptElpInterval : BatadvOption HardIface := {
  name := "elp_interval", type := .NLA_U32,
  get := fun _ hif => batadv_option_hardif_get_elp_interval hif,
  set := fun bp hif v => (batadv_option_hardif_set_elp_interval hif v).map (fun h => (bp, h)),
  validate := none }

/-- The `hardif_options` entry for "throughput_override". -/
def hardifOptThroughputOverride : BatadvOption HardIface := {
  name := "throughput_override", type := .NLA_U32,
  get := fun _ hif => batadv_option_hardif_get_tp_override hif,
  set := fun bp hif v => (batadv_option_hardif_set_tp_override hif v).map (fun h => (bp, h)),
  validate := none }

/-- The `hardif_options` table (CONFIG_BATMAN_ADV_BATMAN_V present). -/
def hardif_options : List (BatadvOption HardIface) := [
  hardifOptElpInterval, hardifOptThroughputOverride]

/-- The `vlan_options` entry for "ap_isolation". -/
def vlanOptApIsolation : BatadvOption SoftifVlan := {
  name := "ap_isolation", type := .NLA_FLAG,
  get := fun _ vlan => batadv_option_vlan_get_ap_isolation vlan,
  set := fun bp vlan v => (batadv_option_vlan_set_ap_isolation vlan v).map (fun w => (bp, w)),
  validate := none }

/-- The `vlan_options` table. -/
def vlan_options : List (BatadvOption SoftifVlan) := [vlanOptApIsolation]

/-- batadv_find_option: linear search by exact (strcmp) name match, first
match wins. -/
def batadv_find_option {Ctx : Type} (name : String) :
    List (BatadvOption Ctx) → Option (BatadvOption Ctx)
  | [] => none
  | o :: os => if o.name = name then some o else batadv_find_option name os

/-- Little-endian value of a byte list (payload bytes of an integer
attribute, as read by nla_get_u8/u16/u32). -/
def leVal (l : List Nat) : Nat :=
  l.foldr (fun b acc => b % 256 + 256 * acc) 0

/-- Little-endian byte list of width @w for value @v (payload written by
nla_put_u8/u16/u32). -/
def leBytes (w v : Nat) : List Nat :=
  (List.range w).map (fun i => v / 256 ^ i % 256)

/-- Content copied by `strlcpy(dst, src, size)` from a NUL-terminated
source: at most size - 1 bytes of the source's initial NUL-free run. -/
def strlcpyBytes (src : List Nat) (size : Nat) : List Nat :=
  (src.takeWhile (fun b => !(b == 0))).take (size - 1)

/-- batadv_option_value_get_from_info: decode the BATADV_ATTR_OPTION_VALUE
attribute (payload bytes, `none` when the attribute is absent) according to
the option's declared netlink type. -/
def batadv_option_value_get_from_info (ty : NlaType) (nla : Option (List Nat)) :
    Except Err ConfigValue :=
  match ty, nla with
  | .NLA_FLAG, _ => .ok (.vbool nla.isSome)
  | _, none => .error .EINVAL
  | .NLA_U8, some p =>
      if p.length < 1 then .error .EINVAL
      else .ok (.vu8 (leVal (p.take 1)))
  | .NLA_U16, some p =>
      if p.length < 2 then .error .EINVAL
      else .ok (.vu16 (leVal (p.take 2)))
  | .NLA_U32, some p =>
      if p.length < 4 then .error .EINVAL
      else .ok (.vu32 (leVal (p.take 4)))
  | .NLA_NUL_STRING, some p =>
      let minlen := min 32 p.length
      if minlen = 0 then .error .EINVAL
      else if !(p.take minlen).contains 0 then .error .EINVAL
      else .ok (.str (strlcpyBytes p 32))

/-- Netlink attribute identifiers used by this subsystem
(enum batadv_nl_attrs members). -/
inductive AttrId where
  | MESH_IFINDEX
  | HARD_IFINDEX
  | VLANID
  | OPTION_NAME
  | OPTION_TYPE
  | OPTION_VALUE
deriving DecidableEq, Repr

/-- Generic netlink commands used by this subsystem
(enum batadv_nl_commands members). -/
inductive NlCmd where
  | GET_OPTION
  | SET_OPTION
  | GET_OPTION_HARDIF
  | SET_OPTION_HARDIF
  | GET_OPTION_VLAN
  | SET_OPTION_VLAN
deriving DecidableEq, Repr

/-- One item appended to a netlink message: the genl header written by
genlmsg_put, or one attribute with its payload bytes. -/
inductive MsgItem where
  | header (cmd : NlCmd)
  | attr (aid : AttrId) (payload : List Nat)
deriving DecidableEq, Repr

/-- Whether a message item is an attribute with the given id. -/
def MsgItem.hasAid (it : MsgItem) (aid : AttrId) : Bool :=
  match it with
  | .header _ => false
  | .attr a _ => a == aid

/-- A netlink message under construction: a capacity (in item slots,
abstracting the sk_buff tailroom; every put consumes one slot) and the
items appended so far.  A put that would exceed the capacity fails, which
models nla_put/genlmsg_put returning failure on insufficient room. -/
structure Msg where
  cap : Nat
  items : List MsgItem
deriving DecidableEq, Repr

/-- An empty message of capacity @cap, as allocated by nlmsg_new. -/
def emptyMsg (cap : Nat) : Msg := { cap := cap, items := [] }

/-- nla_put (and its typed wrappers): append one attribute, failing when
the capacity is exhausted. -/
def nla_put (m : Msg) (aid : AttrId) (payload : List Nat) : Option Msg :=
  if m.items.length < m.cap then
    some { m with items := m.items ++ [.attr aid payload] }
  else none

/-- genlmsg_put: append the message header, failing when the capacity is
exhausted. -/
def genlmsg_put (m : Msg) (cmd : NlCmd) : Option Msg :=
  if m.items.length < m.cap then
    some { m with items := m.items ++ [.header cmd] }
  else none

/-- NUL-terminated payload written by nla_put_string for an ASCII name. -/
def strBytes (s : String) : List Nat :=
  (s.data.map (fun c => c.toNat)) ++ [0]

/-- batadv_get_option_fill_open: read the option's value, then write the
header, option name, option type tag and — per type, with the flag-presence
rule — the option value.  Any put failure aborts with -EMSGSIZE. -/
def batadv_get_option_fill_open {Ctx : Type} (bp : BatPriv) (opt : BatadvOption Ctx)
    (ctx : Ctx) (cmd : NlCmd) (msg : Msg) : Except Err Msg :=
  match opt.get bp ctx with
  | .error e => .error e
  | .ok val =>
    match genlmsg_put msg cmd with
    | none => .error .EMSGSIZE
    | some m1 =>
      match nla_put m1 .OPTION_NAME (strBytes opt.name) with
      | none => .error .EMSGSIZE
      | some m2 =>
        match nla_put m2 .OPTION_TYPE [opt.type.code] with
        | none => .error .EMSGSIZE
        | some m3 =>
          match opt.type with
          | .NLA_U8 =>
              match nla_put m3 .OPTION_VALUE (leBytes 1 val.asU8) with
              | none => .error .EMSGSIZE
              | some m4 => .ok m4
          | .NLA_U16 =>
              match nla_put m3 .OPTION_VALUE (leBytes 2 val.asU16) with
              | none => .error .EMSGSIZE
              | some m4 => .ok m4
          | .NLA_U32 =>
              match nla_put m3 .OPTION_VALUE (leBytes 4 val.asU32) with
              | none => .error .EMSGSIZE
              | some m4 => .ok m4
          | .NLA_NUL_STRING =>
              match nla_put m3 .OPTION_VALUE (val.asStr ++ [0]) with
              | none => .error .EMSGSIZE
              | some m4 => .ok m4
          | .NLA_FLAG =>
              if val.asBool then
                match nla_put m3 .OPTION_VALUE [] with
                | none => .error .EMSGSIZE
                | some m4 => .ok m4
              else .ok m3

/-- batadv_get_option_fill: fill_open followed by genlmsg_end (which only
finalizes the header and appends nothing). -/
def batadv_get_option_fill {Ctx : Type} (bp : BatPriv) (opt : BatadvOption Ctx)
    (ctx : Ctx) (cmd : NlCmd) (msg : Msg) : Except Err Msg :=
  batadv_get_option_fill_open bp opt ctx cmd msg

/-- batadv_option_notify (mesh scope): build a SET_OPTION-shaped message
and append the mesh ifindex; any fill failure is collapsed to -EMSGSIZE by
the source's nla_put_failure path, allocation failure is -ENOMEM.  The
returned message is what gets multicast on the config channel. -/
def batadv_option_notify (bp : BatPriv) (opt : BatadvOption Unit)
    (allocOk : Bool) (cap : Nat) : Except Err Msg :=
  if !allocOk then .error .ENOMEM
  else
    match batadv_get_option_fill_open bp opt () .SET_OPTION (emptyMsg cap) with
    | .error _ => .error .EMSGSIZE
    | .ok m1 =>
      match nla_put m1 .MESH_IFINDEX (leBytes 4 bp.soft_ifindex) with
      | none => .error .EMSGSIZE
      | some m2 => .ok m2

/-- batadv_option_hardif_notify: like the mesh notifier plus the hard
interface's ifindex. -/
def batadv_option_hardif_notify (bp : BatPriv) (hif : HardIface)
    (opt : BatadvOption HardIface) (allocOk : Bool) (cap : Nat) : Except Err Msg :=
  if !allocOk then .error .ENOMEM
  else
    match batadv_get_option_fill_open bp opt hif .SET_OPTION_HARDIF (emptyMsg cap) with
    | .error _ => .error .EMSGSIZE
    | .ok m1 =>
      match nla_put m1 .MESH_IFINDEX (leBytes 4 bp.soft_ifindex) with
      | none => .error .EMSGSIZE
      | some m2 =>
        match nla_put m2 .HARD_IFINDEX (leBytes 4 hif.ifindex) with
        | none => .error .EMSGSIZE
        | some m3 => .ok m3

/-- batadv_option_vlan_notify: like the mesh notifier plus the vlan id
with the HAS_TAG marker bit masked off by VLAN_VID_MASK. -/
def batadv_option_vlan_notify (bp : BatPriv) (vlan : SoftifVlan)
    (opt : BatadvOption SoftifVlan) (allocOk : Bool) (cap : Nat) : Except Err Msg :=
  if !allocOk then .error .ENOMEM
  else
    match batadv_get_option_fill_open bp opt vlan .SET_OPTION_VLAN (emptyMsg cap) with
    | .error _ => .error .EMSGSIZE
    | .ok m1 =>
      match nla_put m1 .MESH_IFINDEX (leBytes 4 bp.soft_ifindex) with
      | none => .error .EMSGSIZE
      | some m2 =>
        match nla_put m2 .VLANID (leBytes 4 (vlan.vid &&& VLAN_VID_MASK)) with
        | none => .error .EMSGSIZE
        | some m3 => .ok m3

/-- A network device as seen by dev_get_by_index: its ifindex and, when it
is a valid batadv soft interface (batadv_softif_is_valid), its priv data. -/
structure NetDevice where
  ifindex : Nat
  batPriv : Option BatPriv
deriving DecidableEq, Repr

/-- The per-request environment: the namespace's device list, the hard
interfaces reachable through batadv_hardif_get_by_netdev (keyed by their
net_dev's ifindex), and whether message allocation succeeds (nlmsg_new). -/
structure Env where
  devices : List NetDevice
  hardifs : List HardIface
  allocOk : Bool
deriving DecidableEq, Repr

/-- dev_get_by_index: find a device by ifindex (the handlers track the
acquired reference). -/
def dev_get_by_index (env : Env) (ifindex : Nat) : Option NetDevice :=
  env.devices.find? (fun d => d.ifindex == ifindex)

/-- batadv_hardif_get_by_netdev: find the hard interface of a net device. -/
def batadv_hardif_get_by_netdev (env : Env) (ifindex : Nat) : Option HardIface :=
  env.hardifs.find? (fun h => h.ifindex == ifindex)

/-- Store updated priv data back into its device (the C code mutates the
priv in place). -/
def Env.setPriv (env : Env) (ifindex : Nat) (bp : BatPriv) : Env :=
  { env with
    devices := env.devices.map
      (fun d => if d.ifindex == ifindex then { d with batPriv := some bp } else d) }

/-- Store an updated hard interface back (the C code mutates it in
place). -/
def Env.setHardif (env : Env) (hif : HardIface) : Env :=
  { env with
    hardifs := env.hardifs.map (fun h => if h.ifindex == hif.ifindex then hif else h) }

/-- Store an updated vlan object back into the priv's vlan list (the C
code mutates the object returned by batadv_softif_vlan_get in place). -/
def BatPriv.setVlanObj (bp : BatPriv) (vl : SoftifVlan) : BatPriv :=
  { bp with vlans := updateVlanList bp.vlans vl.vid (fun _ => vl) }

/-- The parsed attributes of one request (genl_info / netlink_callback):
`none` means the attribute is absent from the message. -/
structure GenlInfo where
  mesh_ifindex : Option Nat
  hard_ifindex : Option Nat
  vlanid : Option Nat
  option_name : Option String
  option_type : Option NlaType
  option_value : Option (List Nat)
deriving DecidableEq, Repr

/-- Reference-count events issued by a handler, in program order: device
references taken by dev_get_by_index / dropped by dev_put, and hard
interface references taken by batadv_hardif_get_by_netdev / dropped by
batadv_hardif_put. -/
inductive RefEvent where
  | acqDev (ifindex : Nat)
  | relDev (ifindex : Nat)
  | acqHardif (ifindex : Nat)
  | relHardif (ifindex : Nat)
deriving DecidableEq, Repr

/-- Whether an event is an acquisition. -/
def RefEvent.isAcq : RefEvent → Bool
  | .acqDev _ => true
  | .acqHardif _ => true
  | _ => false

/-- The release matching an acquisition. -/
def RefEvent.relOf : RefEvent → RefEvent
  | .acqDev i => .relDev i
  | .acqHardif i => .relHardif i
  | e => e

/-- A reference trace is balanced when it consists of a run of
acquisitions followed by the matching releases in reverse acquisition
order. -/
def balancedTrace (t : List RefEvent) : Prop :=
  ∃ as : List RefEvent, (∀ e ∈ as, e.isAcq = true) ∧
    t = as ++ (as.reverse.map RefEvent.relOf)

/-- batadv_get_option (mesh-scope Get handler): attribute presence checks,
name lookup, device resolution and validity check, message allocation,
fill, reply.  The successful result is the reply message. -/
def batadv_get_option (env : Env) (info : GenlInfo) (cap : Nat) : Except Err Msg :=
  match info.mesh_ifindex with
  | none => .error .EINVAL
  | some ifindex =>
  match info.option_name with
  | none => .error .EINVAL
  | some option_name =>
  match batadv_find_option option_name softif_options with
  | none => .error .EOPNOTSUPP
  | some opt =>
  match dev_get_by_index env ifindex with
  | none => .error .ENODEV
  | some sdev =>
  match sdev.batPriv with
  | none => .error .EINVAL
  | some bp =>
  if !env.allocOk then .error .ENOMEM
  else
    match batadv_get_option_fill bp opt () .GET_OPTION (emptyMsg cap) with
    | .error e => .error e
    | .ok msg => .ok msg

/-- batadv_set_option (mesh-scope Set handler): attribute presence checks,
name lookup, declared-type check, value decoding, device resolution, the
descriptor's set, then a best-effort notification whose outcome is
ignored.  Returns the request result and the updated environment. -/
def batadv_set_option (env : Env) (info : GenlInfo) : (Except Err Unit) × Env :=
  match info.mesh_ifindex with
  | none => (.error .EINVAL, env)
  | some ifindex =>
  match info.option_name with
  | none => (.error .EINVAL, env)
  | some option_name =>
  match info.option_type with
  | none => (.error .EINVAL, env)
  | some option_type =>
  match batadv_find_option option_name softif_options with
  | none => (.error .EOPNOTSUPP, env)
  | some opt =>
  if option_type ≠ opt.type then (.error .EINVAL, env)
  else
    match batadv_option_value_get_from_info opt.type info.option_value with
    | .error e => (.error e, env)
    | .ok val =>
    match dev_get_by_index env ifindex with
    | none => (.error .ENODEV, env)
    | some sdev =>
    match sdev.batPriv with
    | none => (.error .EINVAL, env)
    | some bp =>
    match opt.set bp () val with
    | .error e => (.error e, env)
    | .ok (bp2, _) => (.ok (), env.setPriv ifindex bp2)

/-- Loop body of the three dump handlers (netlink_cfg.c lines 1481-1491,
1797-1808, 2076-2086): iterate the table from the start cursor, skipping
entries whose fill fails with -EOPNOTSUPP, stopping on any other failure;
the returned index is stored back into the callback cursor. -/
def batadv_option_dump_loop (fill : Nat → Msg → Except Err Msg) (n : Nat)
    (i : Nat) (msg : Msg) : Nat × Msg :=
  if i < n then
    match fill i msg with
    | .ok m2 => batadv_option_dump_loop fill n (i + 1) m2
    | .error .EOPNOTSUPP => batadv_option_dump_loop fill n (i + 1) msg
    | .error _ => (i, msg)
  else (i, msg)
termination_by n - i

/-- batadv_get_option_dump (mesh-scope dump handler): resolve the mesh
interface, then run the cursor loop over softif_options; the result is the
next cursor and the (partially) filled message. -/
def batadv_get_option_dump (env : Env) (info : GenlInfo) (start : Nat)
    (msg : Msg) : Except Err (Nat × Msg) :=
  let ifindex := info.mesh_ifindex.getD 0
  if ifindex = 0 then .error .EINVAL
  else
    match dev_get_by_index env ifindex with
    | none => .error .ENODEV
    | some sdev =>
    match sdev.batPriv with
    | none => .error .EINVAL
    | some bp =>
      .ok (batadv_option_dump_loop
        (fun i m =>
          match softif_options[i]? with
          | some opt => batadv_get_option_fill bp opt () .GET_OPTION m
          | none => .error .EINVAL)
        softif_options.length start msg)

/-- batadv_get_option_hardif (hardif-scope Get handler), paired with its
reference trace: mesh device, hard device and hard interface are acquired
in order and released in reverse order on every exit path. -/
def batadv_get_option_hardif (env : Env) (info : GenlInfo) (cap : Nat) :
    (Except Err Msg) × List RefEvent :=
  match info.mesh_ifindex with
  | none => (.error .EINVAL, [])
  | some ifindex =>
  match info.hard_ifindex with
  | none => (.error .EINVAL, [])
  | some hardif_index =>
  match info.option_name with
  | none => (.error .EINVAL, [])
  | some option_name =>
  match batadv_find_option option_name hardif_options with
  | none => (.error .EOPNOTSUPP, [])
  | some opt =>
  match dev_get_by_index env ifindex with
  | none => (.error .ENODEV, [])
  | some sdev =>
  match sdev.batPriv with
  | none => (.error .EINVAL, [.acqDev ifindex, .relDev ifindex])
  | some bp =>
  match dev_get_by_index env hardif_index with
  | none => (.error .ENODEV, [.acqDev ifindex, .relDev ifindex])
  | some _hdev =>
  match batadv_hardif_get_by_netdev env hardif_index with
  | none =>
      (.error .EINVAL,
       [.acqDev ifindex, .acqDev hardif_index,
        .relDev hardif_index, .relDev ifindex])
  | some hif =>
  if hif.soft_iface ≠ some ifindex then
    (.error .EINVAL,
     [.acqDev ifindex, .acqDev hardif_index, .acqHardif hardif_index,
      .relHardif hardif_index, .relDev hardif_index, .relDev ifindex])
  else if !env.allocOk then
    (.error .ENOMEM,
     [.acqDev ifindex, .acqDev hardif_index, .acqHardif hardif_index,
      .relHardif hardif_index, .relDev hardif_index, .relDev ifindex])
  else
    match batadv_get_option_fill bp opt hif .GET_OPTION_HARDIF (emptyMsg cap) with
    | .error e =>
        (.error e,
         [.acqDev ifindex, .acqDev hardif_index, .acqHardif hardif_index,
          .relHardif hardif_index, .relDev hardif_index, .relDev ifindex])
    | .ok msg =>
        (.ok msg,
         [.acqDev ifindex, .acqDev hardif_index, .acqHardif hardif_index,
          .relHardif hardif_index, .relDev hardif_index, .relDev ifindex])

/-- batadv_set_option_hardif (hardif-scope Set handler) with its updated
environment and reference trace. -/
def batadv_set_option_hardif (env : Env) (info : GenlInfo) :
    (Except Err Unit) × Env × List RefEvent :=
  match info.mesh_ifindex with
  | none => (.error .EINVAL, env, [])
  | some ifindex =>
  match info.hard_ifindex with
  | none => (.error .EINVAL, env, [])
  | some hardif_index =>
  match info.option_name with
  | none => (.error .EINVAL, env, [])
  | some option_name =>
  match info.option_type with
  | none => (.error .EINVAL, env, [])
  | some option_type =>
  match batadv_find_option option_name hardif_options with
  | none => (.error .EOPNOTSUPP, env, [])
  | some opt =>
  if option_type ≠ opt.type then (.error .EINVAL, env, [])
  else
    match batadv_option_value_get_from_info opt.type info.option_value with
    | .error e => (.error e, env, [])
    | .ok val =>
    match dev_get_by_index env ifindex with
    | none => (.error .ENODEV, env, [])
    | some sdev =>
    match sdev.batPriv with
    | none => (.error .EINVAL, env, [.acqDev ifindex, .relDev ifindex])
    | some bp =>
    match dev_get_by_index env hardif_index with
    | none => (.error .ENODEV, env, [.acqDev ifindex, .relDev ifindex])
    | some _hdev =>
    match batadv_hardif_get_by_netdev env hardif_index with
    | none =>
        (.error .EINVAL, env,
         [.acqDev ifindex, .acqDev hardif_index,
          .relDev hardif_index, .relDev ifindex])
    | some hif =>
    if hif.soft_iface ≠ some ifindex then
      (.error .EINVAL, env,
       [.acqDev ifindex, .acqDev hardif_index, .acqHardif hardif_index,
        .relHardif hardif_index, .relDev hardif_index, .relDev ifindex])
    else
      match opt.set bp hif val with
      | .error e =>
          (.error e, env,
           [.acqDev ifindex, .acqDev hardif_index, .acqHardif hardif_index,
            .relHardif hardif_index, .relDev hardif_index, .relDev ifindex])
      | .ok (bp2, hif2) =>
          (.ok (), (env.setPriv ifindex bp2).setHardif hif2,
           [.acqDev ifindex, .acqDev hardif_index, .acqHardif hardif_index,
            .relHardif hardif_index, .relDev hardif_index, .relDev ifindex])

/-- batadv_get_option_hardif_dump (hardif-scope dump handler) with its
reference trace. -/
def batadv_get_option_hardif_dump (env : Env) (info : GenlInfo) (start : Nat)
    (msg : Msg) : (Except Err (Nat × Msg)) × List RefEvent :=
  let ifindex := info.mesh_ifindex.getD 0
  if ifindex = 0 then (.error .EINVAL, [])
  else
    let hardif_index := info.hard_ifindex.getD 0
    if hardif_index = 0 then (.error .EINVAL, [])
    else
      match dev_get_by_index env ifindex with
      | none => (.error .ENODEV, [])
      | some sdev =>
      match sdev.batPriv with
      | none => (.error .EINVAL, [.acqDev ifindex, .relDev ifindex])
      | some bp =>
      match dev_get_by_index env hardif_index with
      | none => (.error .ENODEV, [.acqDev ifindex, .relDev ifindex])
      | some _hdev =>
      match batadv_hardif_get_by_netdev env hardif_index with
      | none =>
          (.error .EINVAL,
           [.acqDev ifindex, .acqDev hardif_index,
            .relDev hardif_index, .relDev ifindex])
      | some hif =>
      if hif.soft_iface ≠ some ifindex then
        (.error .EINVAL,
         [.acqDev ifindex, .acqDev hardif_index, .acqHardif hardif_index,
          .relHardif hardif_index, .relDev hardif_index, .relDev ifindex])
      else
        (.ok (batadv_option_dump_loop
          (fun i m =>
            match hardif_options[i]? with
            | some opt => batadv_get_option_fill bp opt hif .GET_OPTION_HARDIF m
            | none => .error .EINVAL)
          hardif_options.length start msg),
         [.acqDev ifindex, .acqDev hardif_index, .acqHardif hardif_index,
          .relHardif hardif_index, .relDev hardif_index, .relDev ifindex])

/-- batadv_get_option_vlan (vlan-scope Get handler): the requested 16-bit
vlan id is looked up with BATADV_VLAN_HAS_TAG forced on. -/
def batadv_get_option_vlan (env : Env) (info : GenlInfo) (cap : Nat) :
    Except Err Msg :=
  match info.mesh_ifindex with
  | none => .error .EINVAL
  | some ifindex =>
  match info.vlanid with
  | none => .error .EINVAL
  | some vid =>
  match info.option_name with
  | none => .error .EINVAL
  | some option_name =>
  match batadv_find_option option_name vlan_options with
  | none => .error .EOPNOTSUPP
  | some opt =>
  match dev_get_by_index env ifindex with
  | none => .error .ENODEV
  | some sdev =>
  match sdev.batPriv with
  | none => .error .EINVAL
  | some bp =>
  match batadv_softif_vlan_get bp (vid ||| BATADV_VLAN_HAS_TAG) with
  | none => .error .ENOENT
  | some vlan =>
  if !env.allocOk then .error .ENOMEM
  else
    match batadv_get_option_fill bp opt vlan .GET_OPTION_VLAN (emptyMsg cap) with
    | .error e => .error e
    | .ok msg => .ok msg

/-- batadv_set_option_vlan (vlan-scope Set handler) with its updated
environment. -/
def batadv_set_option_vlan (env : Env) (info : GenlInfo) :
    (Except Err Unit) × Env :=
  match info.mesh_ifindex with
  | none => (.error .EINVAL, env)
  | some ifindex =>
  match info.vlanid with
  | none => (.error .EINVAL, env)
  | some vid =>
  match info.option_name with
  | none => (.error .EINVAL, env)
  | some option_name =>
  match info.option_type with
  | none => (.error .EINVAL, env)
  | some option_type =>
  match batadv_find_option option_name vlan_options with
  | none => (.error .EOPNOTSUPP, env)
  | some opt =>
  if option_type ≠ opt.type then (.error .EINVAL, env)
  else
    match batadv_option_value_get_from_info opt.type info.option_value with
    | .error e => (.error e, env)
    | .ok val =>
    match dev_get_by_index env ifindex with
    | none => (.error .ENODEV, env)
    | some sdev =>
    match sdev.batPriv with
    | none => (.error .EINVAL, env)
    | some bp =>
    match batadv_softif_vlan_get bp (vid ||| BATADV_VLAN_HAS_TAG) with
    | none => (.error .ENOENT, env)
    | some vlan =>
    match opt.set bp vlan val with
    | .error e => (.error e, env)
    | .ok (bp2, vlan2) => (.ok (), env.setPriv ifindex (bp2.setVlanObj vlan2))

/-- batadv_get_option_vlan_dump (vlan-scope dump handler). -/
def batadv_get_option_vlan_dump (env : Env) (info : GenlInfo) (start : Nat)
    (msg : Msg) : Except Err (Nat × Msg) :=
  match info.vlanid with
  | none => .error .EINVAL
  | some vid =>
  let ifindex := info.mesh_ifindex.getD 0
  if ifindex = 0 then .error .EINVAL
  else
    match dev_get_by_index env ifindex with
    | none => .error .ENODEV
    | some sdev =>
    match sdev.batPriv with
    | none => .error .EINVAL
    | some bp =>
    match batadv_softif_vlan_get bp (vid ||| BATADV_VLAN_HAS_TAG) with
    | none => .error .ENOENT
    | some vlan =>
      .ok (batadv_option_dump_loop
        (fun i m =>
          match vlan_options[i]? with
          | some opt => batadv_get_option_fill bp opt vlan .GET_OPTION_VLAN m
          | none => .error .EINVAL)
        vlan_options.length start msg)

end Batadv

namespace Batadv

/-- Sample priv data for the concrete witnesses. -/
def sampleBatPriv : BatPriv := {
  aggregated_ogms := true, bonding := false, bridge_loop_avoidance := false,
  distributed_arp_table := true, fragmentation := true,
  multicast_mode := true, network_coding := false,
  gw_bandwidth_down := 100, gw_bandwidth_up := 20,
  gw_mode := .off, gw_sel_class := 20, hop_penalty := 30, log_level := 0,
  isolation_mark := 0, isolation_mark_mask := 0, orig_interval := 1000,
  algo_ops := { has_get_best_gw_node := true, has_is_eligible := true,
                has_store_sel_class := false },
  vlans := [{ vid := 0, ap_isolation := false }],
  soft_ifindex := 7 }

/-- Sample environment: one valid mesh device with ifindex 7. -/
def sampleEnv : Env :=
  { devices := [{ ifindex := 7, batPriv := some sampleBatPriv }],
    hardifs := [], allocOk := true }

/-- Mesh-scope Set request for hop_penalty with the given u32 value. -/
def sampleSetHopInfo (v : Nat) : GenlInfo :=
  { mesh_ifindex := some 7, hard_ifindex := none, vlanid := none,
    option_name := some "hop_penalty", option_type := some .NLA_U32,
    option_value := some (leBytes 4 v) }

/-- Mesh-scope Get request for aggregated_ogms. -/
def sampleGetAggInfo : GenlInfo :=
  { mesh_ifindex := some 7, hard_ifindex := none, vlanid := none,
    option_name := some "aggregated_ogms", option_type := none,
    option_value := none }

/-- The reply message the sample aggregated_ogms Get produces. -/
def msgAggReply : Msg :=
  { cap := 10, items := [.header .GET_OPTION,
    .attr .OPTION_NAME (strBytes "aggregated_ogms"),
    .attr .OPTION_TYPE [6], .attr .OPTION_VALUE []] }

/-- Receiver-side lookup of an attribute payload in a built message
(nla_find semantics: first match wins). -/
def findAttrPayload (m : Msg) (aid : AttrId) : Option (List Nat) :=
  m.items.findSome? (fun it => match it with
    | .attr a p => if a = aid then some p else none
    | .header _ => none)

/-- Concrete dump fill outcomes for the C4 witness: entry 1 is unsupported,
entry 2 fails with message-capacity exhaustion. -/
def sampleDumpFill : Nat → Msg → Except Err Msg := fun i m =>
  if i = 1 then .error .EOPNOTSUPP else if i = 2 then .error .EMSGSIZE else .ok m

/-- The notification message the sample aggregated_ogms Set multicasts. -/
def msgNotifyAgg : Msg :=
  { cap := 10, items := [.header .SET_OPTION,
    .attr .OPTION_NAME (strBytes "aggregated_ogms"),
    .attr .OPTION_TYPE [6], .attr .OPTION_VALUE [],
    .attr .MESH_IFINDEX (leBytes 4 7)] }

/-- Request naming an option that exists in no table, with every scope
identification attribute present but resolving to nothing. -/
def sampleUnknownNameInfo : GenlInfo :=
  { mesh_ifindex := some 1, hard_ifindex := some 2, vlanid := some 3,
    option_name := some "no_such_option", option_type := some .NLA_U32,
    option_value := some (leBytes 4 0) }

/-- An environment with no devices at all. -/
def sampleEmptyEnv : Env := { devices := [], hardifs := [], allocOk := false }

/-- The message fill_open builds for the sample aggregated_ogms Get. -/
def msgFillAggOpen : Msg :=
  { cap := 10, items := [.header .GET_OPTION,
    .attr .OPTION_NAME (strBytes "aggregated_ogms"),
    .attr .OPTION_TYPE [6], .attr .OPTION_VALUE []] }

/-- Environment for the C5 witness: mesh 7 is valid, device 9 is a hard
interface whose owning mesh is 8, not 7. -/
def sampleMismatchEnv : Env :=
  { devices := [{ ifindex := 7, batPriv := some sampleBatPriv },
                { ifindex := 9, batPriv := none }],
    hardifs := [{ ifindex := 9, elp_interval := 100, throughput_override := 0,
                  soft_iface := some 8 }],
    allocOk := true }

/-- Hardif-scope Get request naming mesh 7 and hard interface 9. -/
def sampleMismatchInfo : GenlInfo :=
  { mesh_ifindex := some 7, hard_ifindex := some 9, vlanid := none,
    option_name := some "elp_interval", option_type := some .NLA_U32,
    option_value := some (leBytes 4 500) }

/-- A mesh with one tagged vlan (id 5 with the tag bit). -/
def sampleTaggedBatPriv : BatPriv :=
  { sampleBatPriv with
    vlans := [{ vid := 5 ||| BATADV_VLAN_HAS_TAG, ap_isolation := false }] }

/-- Vlan-scope Get request for ap_isolation on vlan id 0 of mesh 7. -/
def sampleVlanGetInfo : GenlInfo :=
  { mesh_ifindex := some 7, hard_ifindex := none, vlanid := some 0,
    option_name := some "ap_isolation", option_type := none,
    option_value := none }

/-- The sample mesh under a routing algorithm without gateway support. -/
def sampleNoGwBatPriv : BatPriv :=
  { sampleBatPriv with
    algo_ops := { has_get_best_gw_node := false, has_is_eligible := false,
                  has_store_sel_class := false } }

/-- Auxiliary fact: a NUL found by memchr within the first @m bytes bounds
the length of the initial NUL-free run. -/
theorem takeWhile_length_lt_of_contains (p : List Nat) (m : Nat)
    (h : (p.take m).contains 0 = true) :
    (p.takeWhile (fun b => !(b == 0))).length < m := by
  induction p generalizing m with
  | nil => simp at h
  | cons x xs ih =>
    cases m with
    | zero => simp at h
    | succ k =>
      rw [List.take_succ_cons, List.contains_cons] at h
      rw [List.takeWhile_cons]
      by_cases hx : x = 0
      · simp [hx]
      · have hxs : (xs.take k).contains 0 = true := by
          simp only [Bool.or_eq_true, beq_iff_eq] at h
          rcases h with h1 | h2
          · exact absurd h1.symm hx
          · exact h2
        have hb : (x == 0) = false := by simp [hx]
        simp only [hb, Bool.not_false, if_true, List.length_cons]
        exact Nat.succ_lt_succ (ih k hxs)

/-- Auxiliary fact: a successful nla_put appends exactly one attribute. -/
theorem nla_put_items (m : Msg) (aid : AttrId) (pl : List Nat) (m2 : Msg)
    (h : nla_put m aid pl = some m2) :
    m2.items = m.items ++ [.attr aid pl] ∧ m2.cap = m.cap := by
  unfold nla_put at h
  split at h
  · cases h
    exact ⟨rfl, rfl⟩
  · cases h

/-- Auxiliary fact: a successful genlmsg_put appends exactly the header. -/
theorem genlmsg_put_items (m : Msg) (cmd : NlCmd) (m2 : Msg)
    (h : genlmsg_put m cmd = some m2) :
    m2.items = m.items ++ [.header cmd] ∧ m2.cap = m.cap := by
  unfold genlmsg_put at h
  split at h
  · cases h
    exact ⟨rfl, rfl⟩
  · cases h

/-- Structure of every message successfully built by
batadv_get_option_fill_open: header, option name, option kind tag, then the
option value (absent exactly in the false-Flag case). -/
theorem fill_open_structure {Ctx : Type} (bp : BatPriv) (opt : BatadvOption Ctx)
    (ctx : Ctx) (cmd : NlCmd) (msg m : Msg)
    (h : batadv_get_option_fill_open bp opt ctx cmd msg = .ok m) :
    ∃ vt, m.items = msg.items ++
        [.header cmd, .attr .OPTION_NAME (strBytes opt.name),
         .attr .OPTION_TYPE [opt.type.code]] ++ vt ∧
      (vt = [] ∨ ∃ pl, vt = [MsgItem.attr .OPTION_VALUE pl]) := by
  unfold batadv_get_option_fill_open at h
  split at h
  · exact Except.noConfusion h
  rename_i val hget
  split at h
  · exact Except.noConfusion h
  rename_i m1 hput1
  split at h
  · exact Except.noConfusion h
  rename_i m2 hput2
  split at h
  · exact Except.noConfusion h
  rename_i m3 hput3
  have e1 := genlmsg_put_items _ _ _ hput1
  have e2 := nla_put_items _ _ _ _ hput2
  have e3 := nla_put_items _ _ _ _ hput3
  split at h
  case _ hty =>
    split at h
    · exact Except.noConfusion h
    rename_i m4 hput4
    have e4 := nla_put_items _ _ _ _ hput4
    cases h
    refine ⟨[MsgItem.attr .OPTION_VALUE (leBytes 1 val.asU8)], ?_, .inr ⟨_, rfl⟩⟩
    simp [e4.1, e3.1, e2.1, e1.1, hty]
  case _ hty =>
    split at h
    · exact Except.noConfusion h
    rename_i m4 hput4
    have e4 := nla_put_items _ _ _ _ hput4
    cases h
    refine ⟨[MsgItem.attr .OPTION_VALUE (leBytes 2 val.asU16)], ?_, .inr ⟨_, rfl⟩⟩
    simp [e4.1, e3.1, e2.1, e1.1, hty]
  case _ hty =>
    split at h
    · exact Except.noConfusion h
    rename_i m4 hput4
    have e4 := nla_put_items _ _ _ _ hput4
    cases h
    refine ⟨[MsgItem.attr .OPTION_VALUE (leBytes 4 val.asU32)], ?_, .inr ⟨_, rfl⟩⟩
    simp [e4.1, e3.1, e2.1, e1.1, hty]
  case _ hty =>
    split at h
    · exact Except.noConfusion h
    rename_i m4 hput4
    have e4 := nla_put_items _ _ _ _ hput4
    cases h
    refine ⟨[MsgItem.attr .OPTION_VALUE (val.asStr ++ [0])], ?_, .inr ⟨_, rfl⟩⟩
    simp [e4.1, e3.1, e2.1, e1.1, hty]
  case _ hty =>
    split at h
    · split at h
      · exact Except.noConfusion h
      rename_i m4 hput4
      have e4 := nla_put_items _ _ _ _ hput4
      cases h
      refine ⟨[MsgItem.attr .OPTION_VALUE []], ?_, .inr ⟨_, rfl⟩⟩
      simp [e4.1, e3.1, e2.1, e1.1, hty]
    · cases h
      refine ⟨[], ?_, .inl rfl⟩
      simp [e3.1, e2.1, e1.1, hty]

/-- C1: the claim says a Set whose descriptor has a validate function runs
it before set and a rejected value leaves the stored value unchanged, with
hop_penalty 256 rejected OutOfRange.  The code registers
batadv_option_validate_hop_penalty (which does reject 256 with -ERANGE)
but batadv_set_option never invokes any validate hook, so the Set succeeds
and stores 256: the code contradicts the declared purpose of its own
validate field. -/
theorem c1_set_hop_penalty_bypasses_validate :
    batadv_option_validate_hop_penalty sampleBatPriv (.vu32 256) = .error .ERANGE ∧
    optHopPenalty.validate =
      some (fun bp _ v => batadv_option_validate_hop_penalty bp v) ∧
    (batadv_set_option sampleEnv (sampleSetHopInfo 256)).1 = .ok () ∧
    (batadv_set_option sampleEnv (sampleSetHopInfo 256)).2 =
      { devices := [{ ifindex := 7,
                      batPriv := some { sampleBatPriv with hop_penalty := 256 } }],
        hardifs := [], allocOk := true } :=
  ⟨by decide, rfl, by decide, by decide⟩

/-- C3 counterexample: a mesh Get of ap_isolation on a mesh without the
untagged vlan surfaces the getter's -ENOENT verbatim, not NotSupported as
the claim states. -/
theorem c3_get_ap_isolation_enoent_cx :
    batadv_get_option
      { devices := [{ ifindex := 7,
                      batPriv := some { sampleBatPriv with vlans := [] } }],
        hardifs := [], allocOk := true }
      { sampleGetAggInfo with option_name := some "ap_isolation" } 10 =
      .error .ENOENT ∧
    batadv_get_option
      { devices := [{ ifindex := 7,
                      batPriv := some { sampleBatPriv with vlans := [] } }],
        hardifs := [], allocOk := true }
      { sampleGetAggInfo with option_name := some "ap_isolation" } 10 ≠
      .error .EOPNOTSUPP := by
  refine ⟨by decide, by decide⟩

/-- C3 (amended): for a Get on a name present in the mesh table, a failure
of the descriptor's get function is propagated verbatim as the request
result (so unavailability appears as NotSupported only when the getter
itself returns it, while e.g. the ap_isolation getter's missing-vlan
failure surfaces as NotFound). -/
theorem c3_get_error_propagates_verbatim (env : Env) (info : GenlInfo)
    (cap : Nat) (ifx : Nat) (nm : String) (opt : BatadvOption Unit)
    (sdev : NetDevice) (bp : BatPriv) (e : Err)
    (h1 : info.mesh_ifindex = some ifx) (h2 : info.option_name = some nm)
    (h3 : batadv_find_option nm softif_options = some opt)
    (h4 : dev_get_by_index env ifx = some sdev) (h5 : sdev.batPriv = some bp)
    (h6 : env.allocOk = true)
    (h7 : opt.get bp () = .error e) :
    batadv_get_option env info cap = .error e := by
  simp [batadv_get_option, h1, h2, h3, h4, h5, h6,
        batadv_get_option_fill, batadv_get_option_fill_open, h7]

/-- C3 witness: the amended statement applied to the concrete missing-vlan
environment. -/
theorem c3_get_error_propagates_verbatim_witness :
    batadv_get_option
      { devices := [{ ifindex := 7,
                      batPriv := some { sampleBatPriv with vlans := [] } }],
        hardifs := [], allocOk := true }
      { sampleGetAggInfo with option_name := some "ap_isolation" } 10 =
      .error .ENOENT :=
  c3_get_error_propagates_verbatim _ _ 10 7 "ap_isolation" optApIsolation
    { ifindex := 7, batPriv := some { sampleBatPriv with vlans := [] } }
    { sampleBatPriv with vlans := [] } .ENOENT rfl rfl rfl rfl rfl rfl
    (by decide)

/-- C9: Str-kind decode succeeds exactly when a NUL terminator occurs in
the first min(32, payload length) bytes, yielding the payload's initial
NUL-free run (at most 31 content bytes, i.e. at most 32 bytes with the
terminator); an empty payload or one without a NUL in that prefix fails
-EINVAL. -/
theorem c9_str_decode (p : List Nat) :
    ((p.take (min 32 p.length)).contains 0 = true →
      batadv_option_value_get_from_info .NLA_NUL_STRING (some p) =
        .ok (.str (p.takeWhile (fun b => !(b == 0)))) ∧
      (p.takeWhile (fun b => !(b == 0))).length ≤ 31) ∧
    ((p.take (min 32 p.length)).contains 0 = false →
      batadv_option_value_get_from_info .NLA_NUL_STRING (some p) = .error .EINVAL) ∧
    (p = [] →
      batadv_option_value_get_from_info .NLA_NUL_STRING (some p) = .error .EINVAL) := by
  refine ⟨?_, ?_, ?_⟩
  · intro h
    have hlen := takeWhile_length_lt_of_contains p (min 32 p.length) h
    have hle : (p.takeWhile (fun b => !(b == 0))).length ≤ 31 := by
      have : min 32 p.length ≤ 32 := min_le_left _ _
      omega
    have hne : ¬ (min 32 p.length = 0) := by
      intro h0
      rw [h0] at h
      simp at h
    have hmem : 0 ∈ p.take (min 32 p.length) := by simpa using h
    refine ⟨?_, hle⟩
    simp [batadv_option_value_get_from_info, hne, hmem, strlcpyBytes,
          List.take_of_length_le hle]
  · intro h
    by_cases hp : p.length = 0
    · have : p = [] := List.length_eq_zero.1 hp
      subst this
      decide
    · have hne : ¬ (min 32 p.length = 0) := by omega
      have hmem : 0 ∉ p.take (min 32 p.length) := by simpa using h
      simp [batadv_option_value_get_from_info, hne, hmem]
  · intro h
    subst h
    decide

/-- C9 witness: a 2-content-byte NUL-terminated payload decodes to its
content, and a 40-byte payload with no NUL in the first 32 bytes fails. -/
theorem c9_str_decode_witness :
    (batadv_option_value_get_from_info .NLA_NUL_STRING (some [104, 105, 0]) =
        .ok (.str (([104, 105, 0] : List Nat).takeWhile (fun b => !(b == 0)))) ∧
      (([104, 105, 0] : List Nat).takeWhile (fun b => !(b == 0))).length ≤ 31) ∧
    batadv_option_value_get_from_info .NLA_NUL_STRING
      (some (List.replicate 40 1)) = .error .EINVAL :=
  ⟨(c9_str_decode [104, 105, 0]).1 (by decide),
   (c9_str_decode (List.replicate 40 1)).2.1 (by decide)⟩

/-- C4: the dump loop visits entries in table order from the start cursor,
skips entries failing with NotSupported, stops on any other failure with
the cursor naming the unconsumed entry, and returns the table length when
no such failure occurs. -/
theorem c4_dump_cursor_semantics (fill : Nat → Msg → Except Err Msg)
    (n s : Nat) (msg : Msg) (hs : s ≤ n) (c : Nat) (m : Msg)
    (hr : batadv_option_dump_loop fill n s msg = (c, m)) :
    s ≤ c ∧ c ≤ n ∧
    (c < n → ∃ e, e ≠ Err.EOPNOTSUPP ∧ fill c m = .error e) ∧
    ((∀ i m2 e, i < n → fill i m2 = .error e → e = Err.EOPNOTSUPP) → c = n) := by
  by_cases hlt : s < n
  · rw [batadv_option_dump_loop, if_pos hlt] at hr
    cases hf : fill s msg with
    | ok m2 =>
      rw [hf] at hr
      have ih := c4_dump_cursor_semantics fill n (s + 1) m2 hlt c m hr
      exact ⟨by omega, ih.2.1, ih.2.2.1, ih.2.2.2⟩
    | error e =>
      rw [hf] at hr
      cases e
      all_goals first
        | { have ih := c4_dump_cursor_semantics fill n (s + 1) msg hlt c m hr
            exact ⟨by omega, ih.2.1, ih.2.2.1, ih.2.2.2⟩ }
        | { injection hr with h1 h2
            subst h2
            subst h1
            refine ⟨Nat.le_refl _, Nat.le_of_lt hlt,
              fun _ => ⟨_, by decide, hf⟩, fun hno => ?_⟩
            have := hno s msg _ hlt hf
            simp at this }
  · rw [batadv_option_dump_loop, if_neg hlt] at hr
    injection hr with h1 h2
    subst h2
    subst h1
    exact ⟨Nat.le_refl _, by omega, fun hc => absurd hc hlt, fun _ => by omega⟩
termination_by n - s

/-- C4 witness: on the sample fill the loop skips entry 1 and stops at
entry 2 with cursor 2. -/
theorem c4_dump_cursor_semantics_witness :
    0 ≤ 2 ∧ 2 ≤ 4 ∧
    (2 < 4 → ∃ e, e ≠ Err.EOPNOTSUPP ∧ sampleDumpFill 2 (emptyMsg 5) = .error e) ∧
    ((∀ i m2 e, i < 4 → sampleDumpFill i m2 = .error e → e = Err.EOPNOTSUPP) →
      2 = 4) := by
  have hr : batadv_option_dump_loop sampleDumpFill 4 0 (emptyMsg 5) =
      (2, emptyMsg 5) := by
    simp [batadv_option_dump_loop, sampleDumpFill]
  exact c4_dump_cursor_semantics sampleDumpFill 4 0 (emptyMsg 5) (by omega) 2
    (emptyMsg 5) hr

/-- C2 counterexample: a successful mesh-scope Get reply contains only the
option name, kind tag and value; it carries no mesh interface index, so
the claim that every built option message ends with the scope-identifying
fields fails for Get replies (and dump entries, which use the same fill). -/
theorem c2_get_reply_lacks_scope_fields_cx :
    batadv_get_option sampleEnv sampleGetAggInfo 10 = .ok msgAggReply ∧
    msgAggReply.items.any (fun it => it.hasAid .MESH_IFINDEX) = false := by
  refine ⟨by decide, by decide⟩

/-- C2 (amended): only change notifications carry the scope-identifying
fields.  Messages built by batadv_get_option_fill (Get replies and dump
entries) consist of name, kind tag and optional value with no scope
fields; each notifier appends, after those, the mesh ifindex — plus the
hard interface ifindex for hardif scope and the masked vlan id for vlan
scope. -/
theorem c2_message_scope_fields :
    (∀ {Ctx : Type} (bp : BatPriv) (opt : BatadvOption Ctx) (ctx : Ctx)
        (cmd : NlCmd) (msg m : Msg),
      batadv_get_option_fill bp opt ctx cmd msg = .ok m →
      ∃ tail, m.items = msg.items ++ tail ∧
        ∀ it ∈ tail, it.hasAid .MESH_IFINDEX = false ∧
          it.hasAid .HARD_IFINDEX = false ∧ it.hasAid .VLANID = false) ∧
    (∀ (bp : BatPriv) (opt : BatadvOption Unit) (cap : Nat) (m : Msg),
      batadv_option_notify bp opt true cap = .ok m →
      ∃ vt, m.items =
          [.header .SET_OPTION, .attr .OPTION_NAME (strBytes opt.name),
           .attr .OPTION_TYPE [opt.type.code]] ++ vt ++
          [.attr .MESH_IFINDEX (leBytes 4 bp.soft_ifindex)] ∧
        (vt = [] ∨ ∃ pl, vt = [MsgItem.attr .OPTION_VALUE pl])) ∧
    (∀ (bp : BatPriv) (hif : HardIface) (opt : BatadvOption HardIface)
        (cap : Nat) (m : Msg),
      batadv_option_hardif_notify bp hif opt true cap = .ok m →
      ∃ vt, m.items =
          [.header .SET_OPTION_HARDIF, .attr .OPTION_NAME (strBytes opt.name),
           .attr .OPTION_TYPE [opt.type.code]] ++ vt ++
          [.attr .MESH_IFINDEX (leBytes 4 bp.soft_ifindex),
           .attr .HARD_IFINDEX (leBytes 4 hif.ifindex)] ∧
        (vt = [] ∨ ∃ pl, vt = [MsgItem.attr .OPTION_VALUE pl])) ∧
    (∀ (bp : BatPriv) (vlan : SoftifVlan) (opt : BatadvOption SoftifVlan)
        (cap : Nat) (m : Msg),
      batadv_option_vlan_notify bp vlan opt true cap = .ok m →
      ∃ vt, m.items =
          [.header .SET_OPTION_VLAN, .attr .OPTION_NAME (strBytes opt.name),
           .attr .OPTION_TYPE [opt.type.code]] ++ vt ++
          [.attr .MESH_IFINDEX (leBytes 4 bp.soft_ifindex),
           .attr .VLANID (leBytes 4 (vlan.vid &&& VLAN_VID_MASK))] ∧
        (vt = [] ∨ ∃ pl, vt = [MsgItem.attr .OPTION_VALUE pl])) := by
  refine ⟨?_, ?_, ?_, ?_⟩
  · intro Ctx bp opt ctx cmd msg m h
    obtain ⟨vt, hitems, hvt⟩ := fill_open_structure bp opt ctx cmd msg m h
    refine ⟨[MsgItem.header cmd, .attr .OPTION_NAME (strBytes opt.name),
             .attr .OPTION_TYPE [opt.type.code]] ++ vt, by simpa using hitems, ?_⟩
    intro it hit
    rcases hvt with rfl | ⟨pl, rfl⟩ <;> fin_cases hit <;> simp [MsgItem.hasAid]
  · intro bp opt cap m h
    unfold batadv_option_notify at h
    simp only [Bool.not_true, Bool.false_eq_true, if_false] at h
    split at h
    · exact Except.noConfusion h
    rename_i m1 hfill
    split at h
    · exact Except.noConfusion h
    rename_i m2 hput
    cases h
    obtain ⟨vt, hitems, hvt⟩ :=
      fill_open_structure bp opt () .SET_OPTION (emptyMsg cap) m1 hfill
    have e := nla_put_items _ _ _ _ hput
    refine ⟨vt, ?_, hvt⟩
    simp [e.1, hitems, emptyMsg]
  · intro bp hif opt cap m h
    unfold batadv_option_hardif_notify at h
    simp only [Bool.not_true, Bool.false_eq_true, if_false] at h
    split at h
    · exact Except.noConfusion h
    rename_i m1 hfill
    split at h
    · exact Except.noConfusion h
    rename_i m2 hput
    split at h
    · exact Except.noConfusion h
    rename_i m3 hput2
    cases h
    obtain ⟨vt, hitems, hvt⟩ :=
      fill_open_structure bp opt hif .SET_OPTION_HARDIF (emptyMsg cap) m1 hfill
    have e := nla_put_items _ _ _ _ hput
    have e2 := nla_put_items _ _ _ _ hput2
    refine ⟨vt, ?_, hvt⟩
    simp [e2.1, e.1, hitems, emptyMsg]
  · intro bp vlan opt cap m h
    unfold batadv_option_vlan_notify at h
    simp only [Bool.not_true, Bool.false_eq_true, if_false] at h
    split at h
    · exact Except.noConfusion h
    rename_i m1 hfill
    split at h
    · exact Except.noConfusion h
    rename_i m2 hput
    split at h
    · exact Except.noConfusion h
    rename_i m3 hput2
    cases h
    obtain ⟨vt, hitems, hvt⟩ :=
      fill_open_structure bp opt vlan .SET_OPTION_VLAN (emptyMsg cap) m1 hfill
    have e := nla_put_items _ _ _ _ hput
    have e2 := nla_put_items _ _ _ _ hput2
    refine ⟨vt, ?_, hvt⟩
    simp [e2.1, e.1, hitems, emptyMsg]

/-- C2 witness: the amended statement applied to the concrete
aggregated_ogms Get reply and to its change notification. -/
theorem c2_message_scope_fields_witness :
    (∃ tail, msgAggReply.items = (emptyMsg 10).items ++ tail ∧
      ∀ it ∈ tail, it.hasAid .MESH_IFINDEX = false ∧
        it.hasAid .HARD_IFINDEX = false ∧ it.hasAid .VLANID = false) ∧
    (∃ vt, msgNotifyAgg.items =
        [.header .SET_OPTION, .attr .OPTION_NAME (strBytes optAggregatedOgms.name),
         .attr .OPTION_TYPE [optAggregatedOgms.type.code]] ++ vt ++
        [.attr .MESH_IFINDEX (leBytes 4 sampleBatPriv.soft_ifindex)] ∧
      (vt = [] ∨ ∃ pl, vt = [MsgItem.attr .OPTION_VALUE pl])) :=
  ⟨c2_message_scope_fields.1 sampleBatPriv optAggregatedOgms () .GET_OPTION
      (emptyMsg 10) msgAggReply (by decide),
   c2_message_scope_fields.2.1 sampleBatPriv optAggregatedOgms 10 msgNotifyAgg
      (by decide)⟩

/-- C7: a Get or Set whose option name is absent from the target scope's
table fails NotSupported for every environment, valid or not: the name
lookup precedes device resolution in all six handlers. -/
theorem c7_unknown_name_eopnotsupp :
    (∀ (env : Env) (info : GenlInfo) (cap ifx : Nat) (nm : String),
      info.mesh_ifindex = some ifx → info.option_name = some nm →
      batadv_find_option nm softif_options = none →
      batadv_get_option env info cap = .error .EOPNOTSUPP) ∧
    (∀ (env : Env) (info : GenlInfo) (ifx : Nat) (nm : String) (ty : NlaType),
      info.mesh_ifindex = some ifx → info.option_name = some nm →
      info.option_type = some ty →
      batadv_find_option nm softif_options = none →
      (batadv_set_option env info).1 = .error .EOPNOTSUPP) ∧
    (∀ (env : Env) (info : GenlInfo) (cap ifx hifx : Nat) (nm : String),
      info.mesh_ifindex = some ifx → info.hard_ifindex = some hifx →
      info.option_name = some nm →
      batadv_find_option nm hardif_options = none →
      (batadv_get_option_hardif env info cap).1 = .error .EOPNOTSUPP) ∧
    (∀ (env : Env) (info : GenlInfo) (ifx hifx : Nat) (nm : String) (ty : NlaType),
      info.mesh_ifindex = some ifx → info.hard_ifindex = some hifx →
      info.option_name = some nm → info.option_type = some ty →
      batadv_find_option nm hardif_options = none →
      (batadv_set_option_hardif env info).1 = .error .EOPNOTSUPP) ∧
    (∀ (env : Env) (info : GenlInfo) (cap ifx vid : Nat) (nm : String),
      info.mesh_ifindex = some ifx → info.vlanid = some vid →
      info.option_name = some nm →
      batadv_find_option nm vlan_options = none →
      batadv_get_option_vlan env info cap = .error .EOPNOTSUPP) ∧
    (∀ (env : Env) (info : GenlInfo) (ifx vid : Nat) (nm : String) (ty : NlaType),
      info.mesh_ifindex = some ifx → info.vlanid = some vid →
      info.option_name = some nm → info.option_type = some ty →
      batadv_find_option nm vlan_options = none →
      (batadv_set_option_vlan env info).1 = .error .EOPNOTSUPP) := by
  refine ⟨?_, ?_, ?_, ?_, ?_, ?_⟩
  · intro env info cap ifx nm h1 h2 h3
    simp [batadv_get_option, h1, h2, h3]
  · intro env info ifx nm ty h1 h2 h3 h4
    simp [batadv_set_option, h1, h2, h3, h4]
  · intro env info cap ifx hifx nm h1 h2 h3 h4
    simp [batadv_get_option_hardif, h1, h2, h3, h4]
  · intro env info ifx hifx nm ty h1 h2 h3 h4 h5
    simp [batadv_set_option_hardif, h1, h2, h3, h4, h5]
  · intro env info cap ifx vid nm h1 h2 h3 h4
    simp [batadv_get_option_vlan, h1, h2, h3, h4]
  · intro env info ifx vid nm ty h1 h2 h3 h4 h5
    simp [batadv_set_option_vlan, h1, h2, h3, h4, h5]

/-- C7 witness: all six handlers reject the unknown name with NotSupported
in the empty environment where no identifier resolves. -/
theorem c7_unknown_name_eopnotsupp_witness :
    batadv_get_option sampleEmptyEnv sampleUnknownNameInfo 10 = .error .EOPNOTSUPP ∧
    (batadv_set_option sampleEmptyEnv sampleUnknownNameInfo).1 = .error .EOPNOTSUPP ∧
    (batadv_get_option_hardif sampleEmptyEnv sampleUnknownNameInfo 10).1 =
      .error .EOPNOTSUPP ∧
    (batadv_set_option_hardif sampleEmptyEnv sampleUnknownNameInfo).1 =
      .error .EOPNOTSUPP ∧
    batadv_get_option_vlan sampleEmptyEnv sampleUnknownNameInfo 10 =
      .error .EOPNOTSUPP ∧
    (batadv_set_option_vlan sampleEmptyEnv sampleUnknownNameInfo).1 =
      .error .EOPNOTSUPP :=
  ⟨c7_unknown_name_eopnotsupp.1 _ _ 10 1 "no_such_option" rfl rfl rfl,
   c7_unknown_name_eopnotsupp.2.1 _ _ 1 "no_such_option" .NLA_U32 rfl rfl rfl rfl,
   c7_unknown_name_eopnotsupp.2.2.1 _ _ 10 1 2 "no_such_option" rfl rfl rfl rfl,
   c7_unknown_name_eopnotsupp.2.2.2.1 _ _ 1 2 "no_such_option" .NLA_U32
     rfl rfl rfl rfl rfl,
   c7_unknown_name_eopnotsupp.2.2.2.2.1 _ _ 10 1 3 "no_such_option" rfl rfl rfl rfl,
   c7_unknown_name_eopnotsupp.2.2.2.2.2 _ _ 1 3 "no_such_option" .NLA_U32
     rfl rfl rfl rfl rfl⟩

/-- C8: Flag decode maps attribute absence to false and presence to true;
the fill path emits the value attribute exactly when the flag is true; so
decoding what fill emitted returns the original boolean for both values. -/
theorem c8_flag_roundtrip :
    (batadv_option_value_get_from_info .NLA_FLAG none = .ok (.vbool false)) ∧
    (∀ p : List Nat, batadv_option_value_get_from_info .NLA_FLAG (some p) =
      .ok (.vbool true)) ∧
    (∀ {Ctx : Type} (bp : BatPriv) (opt : BatadvOption Ctx) (ctx : Ctx)
        (cmd : NlCmd) (cap : Nat) (b : Bool) (m : Msg),
      opt.type = .NLA_FLAG →
      opt.get bp ctx = .ok (.vbool b) →
      batadv_get_option_fill_open bp opt ctx cmd (emptyMsg cap) = .ok m →
      findAttrPayload m .OPTION_VALUE = (if b then some [] else none) ∧
      batadv_option_value_get_from_info .NLA_FLAG
          (findAttrPayload m .OPTION_VALUE) = .ok (.vbool b)) := by
  refine ⟨rfl, fun p => rfl, ?_⟩
  intro Ctx bp opt ctx cmd cap b m htype hget h
  unfold batadv_get_option_fill_open at h
  split at h
  · exact Except.noConfusion h
  rename_i val hget2
  rw [hget] at hget2
  injection hget2 with hv
  subst hv
  split at h
  · exact Except.noConfusion h
  rename_i m1 hput1
  split at h
  · exact Except.noConfusion h
  rename_i m2 hput2
  split at h
  · exact Except.noConfusion h
  rename_i m3 hput3
  have e1 := genlmsg_put_items _ _ _ hput1
  have e2 := nla_put_items _ _ _ _ hput2
  have e3 := nla_put_items _ _ _ _ hput3
  split at h
  case _ hty => rw [htype] at hty; exact NlaType.noConfusion hty
  case _ hty => rw [htype] at hty; exact NlaType.noConfusion hty
  case _ hty => rw [htype] at hty; exact NlaType.noConfusion hty
  case _ hty => rw [htype] at hty; exact NlaType.noConfusion hty
  case _ hty =>
    split at h
    case _ hcond =>
      split at h
      · exact Except.noConfusion h
      rename_i m4 hput4
      have e4 := nla_put_items _ _ _ _ hput4
      cases h
      have hb : b = true := by simpa [ConfigValue.asBool] using hcond
      subst hb
      constructor
      · simp [findAttrPayload, e4.1, e3.1, e2.1, e1.1, emptyMsg, MsgItem.hasAid]
      · simp [findAttrPayload, e4.1, e3.1, e2.1, e1.1, emptyMsg,
              batadv_option_value_get_from_info]
    case _ hcond =>
      cases h
      have hb : b = false := by
        simpa [ConfigValue.asBool] using hcond
      subst hb
      constructor
      · simp [findAttrPayload, e3.1, e2.1, e1.1, emptyMsg]
      · simp [findAttrPayload, e3.1, e2.1, e1.1, emptyMsg,
              batadv_option_value_get_from_info]

/-- C8 witness: round trip for the concrete true-valued aggregated_ogms
flag built into a concrete message. -/
theorem c8_flag_roundtrip_witness :
    findAttrPayload msgFillAggOpen .OPTION_VALUE = (if true then some [] else none) ∧
    batadv_option_value_get_from_info .NLA_FLAG
        (findAttrPayload msgFillAggOpen .OPTION_VALUE) = .ok (.vbool true) :=
  c8_flag_roundtrip.2.2 sampleBatPriv optAggregatedOgms () .GET_OPTION 10 true
    msgFillAggOpen rfl rfl (by decide)

/-- Balanced shape with no acquisition. -/
theorem balancedTrace_nil : balancedTrace [] := by
  refine ⟨[], ?_, rfl⟩
  intro e he
  cases he

/-- Balanced shape after acquiring only the mesh device. -/
theorem balancedTrace_dev (i : Nat) :
    balancedTrace [RefEvent.acqDev i, RefEvent.relDev i] := by
  refine ⟨[RefEvent.acqDev i], ?_, rfl⟩
  intro e he
  fin_cases he
  rfl

/-- Balanced shape after acquiring the mesh and hard devices. -/
theorem balancedTrace_dev2 (i j : Nat) :
    balancedTrace [RefEvent.acqDev i, RefEvent.acqDev j,
      RefEvent.relDev j, RefEvent.relDev i] := by
  refine ⟨[RefEvent.acqDev i, RefEvent.acqDev j], ?_, rfl⟩
  intro e he
  fin_cases he <;> rfl

/-- Balanced shape after acquiring both devices and the hard interface. -/
theorem balancedTrace_dev2_hardif (i j k : Nat) :
    balancedTrace [RefEvent.acqDev i, RefEvent.acqDev j, RefEvent.acqHardif k,
      RefEvent.relHardif k, RefEvent.relDev j, RefEvent.relDev i] := by
  refine ⟨[RefEvent.acqDev i, RefEvent.acqDev j, RefEvent.acqHardif k], ?_, rfl⟩
  intro e he
  fin_cases he <;> rfl

/-- C5: a hardif-scope request whose hard interface belongs to a different
mesh fails InvalidArgument (get, set and dump alike), and on every input
each of the three hardif handlers produces a balanced reference trace:
acquisitions in program order followed by the matching releases in reverse
order. -/
theorem c5_hardif_scope_refs :
    (∀ (env : Env) (info : GenlInfo) (cap ifx hifx : Nat) (nm : String)
        (opt : BatadvOption HardIface) (sdev : NetDevice) (bp : BatPriv)
        (hdev : NetDevice) (hif : HardIface),
      info.mesh_ifindex = some ifx → info.hard_ifindex = some hifx →
      info.option_name = some nm →
      batadv_find_option nm hardif_options = some opt →
      dev_get_by_index env ifx = some sdev → sdev.batPriv = some bp →
      dev_get_by_index env hifx = some hdev →
      batadv_hardif_get_by_netdev env hifx = some hif →
      hif.soft_iface ≠ some ifx →
      (batadv_get_option_hardif env info cap).1 = .error .EINVAL) ∧
    (∀ (env : Env) (info : GenlInfo) (ifx hifx : Nat) (nm : String)
        (opt : BatadvOption HardIface) (val : ConfigValue) (sdev : NetDevice)
        (bp : BatPriv) (hdev : NetDevice) (hif : HardIface),
      info.mesh_ifindex = some ifx → info.hard_ifindex = some hifx →
      info.option_name = some nm → info.option_type = some opt.type →
      batadv_find_option nm hardif_options = some opt →
      batadv_option_value_get_from_info opt.type info.option_value = .ok val →
      dev_get_by_index env ifx = some sdev → sdev.batPriv = some bp →
      dev_get_by_index env hifx = some hdev →
      batadv_hardif_get_by_netdev env hifx = some hif →
      hif.soft_iface ≠ some ifx →
      (batadv_set_option_hardif env info).1 = .error .EINVAL) ∧
    (∀ (env : Env) (info : GenlInfo) (start : Nat) (msg : Msg)
        (ifx hifx : Nat) (sdev : NetDevice) (bp : BatPriv)
        (hdev : NetDevice) (hif : HardIface),
      info.mesh_ifindex = some ifx → ifx ≠ 0 →
      info.hard_ifindex = some hifx → hifx ≠ 0 →
      dev_get_by_index env ifx = some sdev → sdev.batPriv = some bp →
      dev_get_by_index env hifx = some hdev →
      batadv_hardif_get_by_netdev env hifx = some hif →
      hif.soft_iface ≠ some ifx →
      (batadv_get_option_hardif_dump env info start msg).1 = .error .EINVAL) ∧
    (∀ (env : Env) (info : GenlInfo) (cap : Nat),
      balancedTrace (batadv_get_option_hardif env info cap).2) ∧
    (∀ (env : Env) (info : GenlInfo),
      balancedTrace (batadv_set_option_hardif env info).2.2) ∧
    (∀ (env : Env) (info : GenlInfo) (start : Nat) (msg : Msg),
      balancedTrace (batadv_get_option_hardif_dump env info start msg).2) := by
  refine ⟨?_, ?_, ?_, ?_, ?_, ?_⟩
  · intro env info cap ifx hifx nm opt sdev bp hdev hif h1 h2 h3 h4 h5 h6 h7 h8 h9
    simp [batadv_get_option_hardif, h1, h2, h3, h4, h5, h6, h7, h8, h9]
  · intro env info ifx hifx nm opt val sdev bp hdev hif h1 h2 h3 h4 h5 h6 h7 h8 h9
      h10 h11
    simp [batadv_set_option_hardif, h1, h2, h3, h4, h5, h6, h7, h8, h9, h10, h11]
  · intro env info start msg ifx hifx sdev bp hdev hif h1 h2 h3 h4 h5 h6 h7 h8 h9
    simp [batadv_get_option_hardif_dump, h1, h2, h3, h4, h5, h6, h7, h8, h9]
  · intro env info cap
    unfold batadv_get_option_hardif
    repeat' split
    all_goals first
      | exact balancedTrace_nil
      | exact balancedTrace_dev _
      | exact balancedTrace_dev2 _ _
      | exact balancedTrace_dev2_hardif _ _ _
  · intro env info
    unfold batadv_set_option_hardif
    repeat' split
    all_goals first
      | exact balancedTrace_nil
      | exact balancedTrace_dev _
      | exact balancedTrace_dev2 _ _
      | exact balancedTrace_dev2_hardif _ _ _
  · intro env info start msg
    unfold batadv_get_option_hardif_dump
    dsimp only
    repeat' split
    all_goals first
      | exact balancedTrace_nil
      | exact balancedTrace_dev _
      | exact balancedTrace_dev2 _ _
      | exact balancedTrace_dev2_hardif _ _ _

/-- C5 witness: the mismatch rejection and the balanced trace at the
concrete mismatching environment. -/
theorem c5_hardif_scope_refs_witness :
    (batadv_get_option_hardif sampleMismatchEnv sampleMismatchInfo 10).1 =
      .error .EINVAL ∧
    balancedTrace (batadv_get_option_hardif sampleMismatchEnv sampleMismatchInfo 10).2 :=
  ⟨c5_hardif_scope_refs.1 sampleMismatchEnv sampleMismatchInfo 10 7 9
      "elp_interval" hardifOptElpInterval
      { ifindex := 7, batPriv := some sampleBatPriv } sampleBatPriv
      { ifindex := 9, batPriv := none }
      { ifindex := 9, elp_interval := 100, throughput_override := 0,
        soft_iface := some 8 }
      rfl rfl rfl rfl rfl rfl rfl rfl (by decide),
   c5_hardif_scope_refs.2.2.2.1 sampleMismatchEnv sampleMismatchInfo 10⟩

/-- Auxiliary fact: a vlan found under a tag-forced id has the tag bit. -/
theorem vlan_get_tagged_bit (bp : BatPriv) (rv : Nat) (vl : SoftifVlan)
    (h : batadv_softif_vlan_get bp (rv ||| BATADV_VLAN_HAS_TAG) = some vl) :
    vl.vid.testBit 15 = true := by
  unfold batadv_softif_vlan_get at h
  have := List.find?_some h
  have hv : vl.vid = rv ||| BATADV_VLAN_HAS_TAG := by simpa using this
  rw [hv]
  have h15 : (BATADV_VLAN_HAS_TAG).testBit 15 = true := by decide
  simp [Nat.testBit_or, h15]

/-- Auxiliary fact: when every vlan of the mesh lacks the tag bit (as the
untagged vlan does), the tag-forced lookup misses. -/
theorem vlan_get_tagged_miss (bp : BatPriv) (rv : Nat)
    (h : ∀ vl ∈ bp.vlans, vl.vid.testBit 15 = false) :
    batadv_softif_vlan_get bp (rv ||| BATADV_VLAN_HAS_TAG) = none := by
  cases hf : batadv_softif_vlan_get bp (rv ||| BATADV_VLAN_HAS_TAG) with
  | none => rfl
  | some vl =>
    have hbit := vlan_get_tagged_bit bp rv vl hf
    have hmem : vl ∈ bp.vlans := by
      unfold batadv_softif_vlan_get at hf
      exact List.mem_of_find?_eq_some hf
    rw [h vl hmem] at hbit
    exact Bool.noConfusion hbit

/-- C10: all vlan-scope handlers look the requested id up with the tag bit
forced on, so only tag-bit vlans are reachable and a mesh whose vlans all
lack the tag bit (in particular the untagged vlan) always yields NotFound;
the vlan notifier reports the vlan id with the tag bit masked off. -/
theorem c10_vlan_tag_forced :
    (∀ (bp : BatPriv) (rv : Nat) (vl : SoftifVlan),
      batadv_softif_vlan_get bp (rv ||| BATADV_VLAN_HAS_TAG) = some vl →
      vl.vid.testBit 15 = true) ∧
    (∀ (bp : BatPriv) (rv : Nat),
      (∀ vl ∈ bp.vlans, vl.vid.testBit 15 = false) →
      batadv_softif_vlan_get bp (rv ||| BATADV_VLAN_HAS_TAG) = none) ∧
    (∀ (env : Env) (info : GenlInfo) (cap ifx rv : Nat) (nm : String)
        (opt : BatadvOption SoftifVlan) (sdev : NetDevice) (bp : BatPriv),
      info.mesh_ifindex = some ifx → info.vlanid = some rv →
      info.option_name = some nm →
      batadv_find_option nm vlan_options = some opt →
      dev_get_by_index env ifx = some sdev → sdev.batPriv = some bp →
      (∀ vl ∈ bp.vlans, vl.vid.testBit 15 = false) →
      batadv_get_option_vlan env info cap = .error .ENOENT) ∧
    (∀ (env : Env) (info : GenlInfo) (ifx rv : Nat) (nm : String)
        (opt : BatadvOption SoftifVlan) (val : ConfigValue) (sdev : NetDevice)
        (bp : BatPriv),
      info.mesh_ifindex = some ifx → info.vlanid = some rv →
      info.option_name = some nm → info.option_type = some opt.type →
      batadv_find_option nm vlan_options = some opt →
      batadv_option_value_get_from_info opt.type info.option_value = .ok val →
      dev_get_by_index env ifx = some sdev → sdev.batPriv = some bp →
      (∀ vl ∈ bp.vlans, vl.vid.testBit 15 = false) →
      (batadv_set_option_vlan env info).1 = .error .ENOENT) ∧
    (∀ (env : Env) (info : GenlInfo) (start : Nat) (msg : Msg) (ifx rv : Nat)
        (sdev : NetDevice) (bp : BatPriv),
      info.mesh_ifindex = some ifx → ifx ≠ 0 → info.vlanid = some rv →
      dev_get_by_index env ifx = some sdev → sdev.batPriv = some bp →
      (∀ vl ∈ bp.vlans, vl.vid.testBit 15 = false) →
      batadv_get_option_vlan_dump env info start msg = .error .ENOENT) ∧
    (∀ (bp : BatPriv) (vlan : SoftifVlan) (opt : BatadvOption SoftifVlan)
        (cap : Nat) (m : Msg),
      batadv_option_vlan_notify bp vlan opt true cap = .ok m →
      m.items.getLast? =
        some (.attr .VLANID (leBytes 4 (vlan.vid &&& VLAN_VID_MASK))) ∧
      (vlan.vid &&& VLAN_VID_MASK).testBit 15 = false) := by
  refine ⟨vlan_get_tagged_bit, vlan_get_tagged_miss, ?_, ?_, ?_, ?_⟩
  · intro env info cap ifx rv nm opt sdev bp h1 h2 h3 h4 h5 h6 h7
    have hmiss := vlan_get_tagged_miss bp rv h7
    simp [batadv_get_option_vlan, h1, h2, h3, h4, h5, h6, hmiss]
  · intro env info ifx rv nm opt val sdev bp h1 h2 h3 h4 h5 h6 h7 h8 h9
    have hmiss := vlan_get_tagged_miss bp rv h9
    simp [batadv_set_option_vlan, h1, h2, h3, h4, h5, h6, h7, h8, hmiss]
  · intro env info start msg ifx rv sdev bp h1 h2 h3 h4 h5 h6
    have hmiss := vlan_get_tagged_miss bp rv h6
    simp [batadv_get_option_vlan_dump, h1, h2, h3, h4, h5, hmiss]
  · intro bp vlan opt cap m h
    unfold batadv_option_vlan_notify at h
    simp only [Bool.not_true, Bool.false_eq_true, if_false] at h
    split at h
    · exact Except.noConfusion h
    rename_i m1 hfill
    split at h
    · exact Except.noConfusion h
    rename_i m2 hput
    split at h
    · exact Except.noConfusion h
    rename_i m3 hput2
    cases h
    have e2 := nla_put_items _ _ _ _ hput2
    constructor
    · rw [e2.1]
      exact List.getLast?_concat _
    · have h15 : (VLAN_VID_MASK).testBit 15 = false := by decide
      simp [Nat.testBit_and, h15]

/-- C10 witness: the tag-forced lookup finds the tagged vlan (tag bit
set), and on the sample mesh, whose only vlan is the untagged one, the
vlan-scope Get for id 0 fails NotFound. -/
theorem c10_vlan_tag_forced_witness :
    ({ vid := 5 ||| BATADV_VLAN_HAS_TAG, ap_isolation := false } :
      SoftifVlan).vid.testBit 15 = true ∧
    batadv_get_option_vlan sampleEnv sampleVlanGetInfo 10 = .error .ENOENT :=
  ⟨c10_vlan_tag_forced.1 sampleTaggedBatPriv 5
      { vid := 5 ||| BATADV_VLAN_HAS_TAG, ap_isolation := false } (by decide),
   c10_vlan_tag_forced.2.2.1 sampleEnv sampleVlanGetInfo 10 7 0 "ap_isolation"
      vlanOptApIsolation { ifindex := 7, batPriv := some sampleBatPriv }
      sampleBatPriv rfl rfl rfl rfl rfl rfl (by decide)⟩

/-- Auxiliary fact: updating the ap_isolation flag of the vlan that find?
returns leaves it findable with the updated flag. -/
theorem find_updateVlanList (l : List SoftifVlan) (vid : Nat) (b : Bool)
    (vl : SoftifVlan) (h : l.find? (fun v => v.vid == vid) = some vl) :
    (updateVlanList l vid (fun v => { v with ap_isolation := b })).find?
      (fun v => v.vid == vid) = some { vl with ap_isolation := b } := by
  induction l with
  | nil => simp [List.find?] at h
  | cons x xs ih =>
    by_cases hx : (x.vid == vid) = true
    · simp only [List.find?, hx] at h
      injection h with h
      subst h
      have hx2 : (({ x with ap_isolation := b } : SoftifVlan).vid == vid) = true := hx
      simp only [updateVlanList, if_pos hx, List.find?, hx2]
    · have hx3 : (x.vid == vid) = false := by simpa using hx
      simp only [List.find?, hx3] at h
      simp only [updateVlanList, if_neg hx, List.find?, hx3]
      exact ih h

/-- C6 (amended): for every descriptor of every scope table and every
well-formed value v accepted by the descriptor validator (when present),
a successful Set(v) followed by a successful Get() on the same scope
returns exactly v.  (As stated the claim is false: the Get itself can fail
for gw_mode, whose validator does not require gateway support while its
getter does — see the counterexample.) -/
theorem c6_set_get_roundtrip :
    (∀ opt ∈ softif_options, ∀ (bp bp2 : BatPriv) (v w : ConfigValue),
      ConfigValue.wfFor opt.type v = true →
      (∀ f, opt.validate = some f → f bp () v = .ok ()) →
      opt.set bp () v = .ok (bp2, ()) →
      opt.get bp2 () = .ok w → w = v) ∧
    (∀ opt ∈ hardif_options, ∀ (bp bp2 : BatPriv) (hif hif2 : HardIface)
        (v w : ConfigValue),
      ConfigValue.wfFor opt.type v = true →
      (∀ f, opt.validate = some f → f bp hif v = .ok ()) →
      opt.set bp hif v = .ok (bp2, hif2) →
      opt.get bp2 hif2 = .ok w → w = v) ∧
    (∀ opt ∈ vlan_options, ∀ (bp bp2 : BatPriv) (vl vl2 : SoftifVlan)
        (v w : ConfigValue),
      ConfigValue.wfFor opt.type v = true →
      (∀ f, opt.validate = some f → f bp vl v = .ok ()) →
      opt.set bp vl v = .ok (bp2, vl2) →
      opt.get bp2 vl2 = .ok w → w = v) := by
  refine ⟨?_, ?_, ?_⟩
  · intro opt hopt
    fin_cases hopt
    · intro bp bp2 v w hwf hval hset hget
      cases v <;> simp [optAggregatedOgms, ConfigValue.wfFor] at hwf
      simp [optAggregatedOgms, batadv_option_set_aggregated_ogms, Except.map] at hset
      subst hset
      simp [optAggregatedOgms, batadv_option_get_aggregated_ogms, ConfigValue.asBool] at hget
      subst hget
      rfl
    · intro bp bp2 v w hwf hval hset hget
      cases v <;> simp [optApIsolation, ConfigValue.wfFor] at hwf
      rename_i b
      simp only [optApIsolation, batadv_option_set_ap_isolation] at hset
      cases hfind : batadv_softif_vlan_get bp BATADV_NO_FLAGS with
      | none =>
        rw [hfind] at hset
        simp [Except.map] at hset
      | some vl =>
        rw [hfind] at hset
        simp [Except.map] at hset
        subst hset
        have hupd := find_updateVlanList bp.vlans BATADV_NO_FLAGS
          (ConfigValue.vbool b).asBool vl (by simpa [batadv_softif_vlan_get] using hfind)
        simp only [optApIsolation, batadv_option_get_ap_isolation,
          batadv_softif_vlan_get] at hget
        rw [hupd] at hget
        simp [ConfigValue.asBool] at hget
        subst hget
        rfl
    · intro bp bp2 v w hwf hval hset hget
      cases v <;> simp [optBonding, ConfigValue.wfFor] at hwf
      simp [optBonding, batadv_option_set_bonding, Except.map] at hset
      subst hset
      simp [optBonding, batadv_option_get_bonding, ConfigValue.asBool] at hget
      subst hget
      rfl
    · intro bp bp2 v w hwf hval hset hget
      cases v <;> simp [optBridgeLoopAvoidance, ConfigValue.wfFor] at hwf
      simp [optBridgeLoopAvoidance, batadv_option_set_bridge_loop_avoidance, Except.map] at hset
      subst hset
      simp [optBridgeLoopAvoidance, batadv_option_get_bridge_loop_avoidance, ConfigValue.asBool] at hget
      subst hget
      rfl
    · intro bp bp2 v w hwf hval hset hget
      cases v <;> simp [optDistributedArpTable, ConfigValue.wfFor] at hwf
      simp [optDistributedArpTable, batadv_option_set_distributed_arp_table, Except.map] at hset
      subst hset
      simp [optDistributedArpTable, batadv_option_get_distributed_arp_table, ConfigValue.asBool] at hget
      subst hget
      rfl
    · intro bp bp2 v w hwf hval hset hget
      cases v <;> simp [optFragmentation, ConfigValue.wfFor] at hwf
      simp [optFragmentation, batadv_option_set_fragmentation, Except.map] at hset
      subst hset
      simp [optFragmentation, batadv_option_get_fragmentation, ConfigValue.asBool] at hget
      subst hget
      rfl
    · intro bp bp2 v w hwf hval hset hget
      cases v <;> simp [optGwBandwidthDown, ConfigValue.wfFor] at hwf
      simp [optGwBandwidthDown, batadv_option_set_gw_bandwidth_down, Except.map] at hset
      subst hset
      simp [optGwBandwidthDown, batadv_option_get_gw_bandwidth_down, ConfigValue.asU32, Nat.mod_eq_of_lt hwf] at hget
      subst hget
      rfl
    · intro bp bp2 v w hwf hval hset hget
      cases v <;> simp [optGwBandwidthUp, ConfigValue.wfFor] at hwf
      simp [optGwBandwidthUp, batadv_option_set_gw_bandwidth_up, Except.map] at hset
      subst hset
      simp [optGwBandwidthUp, batadv_option_get_gw_bandwidth_up, ConfigValue.asU32, Nat.mod_eq_of_lt hwf] at hget
      subst hget
      rfl
    · intro bp bp2 v w hwf hval hset hget
      cases v <;> simp [optGwMode, ConfigValue.wfFor] at hwf
      rename_i s
      have hv := hval _ rfl
      simp only [batadv_option_validate_gw_mode, ConfigValue.asStr] at hv
      split at hv
      · rename_i hoff
        simp [optGwMode, batadv_option_set_gw_mode, ConfigValue.asStr, ← hoff,
          BATADV_GW_MODE_OFF_NAME, BATADV_GW_MODE_CLIENT_NAME,
          BATADV_GW_MODE_SERVER_NAME, Except.map] at hset
        subst hset
        simp only [optGwMode, batadv_option_get_gw_mode] at hget
        split at hget
        · exact Except.noConfusion hget
        · simp at hget
          subst hget
          rw [← hoff]
      · rename_i hoff
        split at hv
        · rename_i hclient
          simp [optGwMode, batadv_option_set_gw_mode, ConfigValue.asStr, ← hclient,
            BATADV_GW_MODE_OFF_NAME, BATADV_GW_MODE_CLIENT_NAME,
            BATADV_GW_MODE_SERVER_NAME, Except.map] at hset
          subst hset
          simp only [optGwMode, batadv_option_get_gw_mode] at hget
          split at hget
          · exact Except.noConfusion hget
          · simp at hget
            subst hget
            rw [← hclient]
        · rename_i hclient
          split at hv
          · rename_i hserver
            simp [optGwMode, batadv_option_set_gw_mode, ConfigValue.asStr, ← hserver,
              BATADV_GW_MODE_OFF_NAME, BATADV_GW_MODE_CLIENT_NAME,
              BATADV_GW_MODE_SERVER_NAME, Except.map] at hset
            subst hset
            simp only [optGwMode, batadv_option_get_gw_mode] at hget
            split at hget
            · exact Except.noConfusion hget
            · simp at hget
              subst hget
              rw [← hserver]
          · exact Except.noConfusion hv
    · intro bp bp2 v w hwf hval hset hget
      cases v <;> simp [optGwSelClass, ConfigValue.wfFor] at hwf
      simp [optGwSelClass, batadv_option_set_gw_sel_class, Except.map] at hset
      subst hset
      simp only [optGwSelClass, batadv_option_get_gw_sel_class] at hget
      split at hget
      · exact Except.noConfusion hget
      · simp [ConfigValue.asU32, Nat.mod_eq_of_lt hwf] at hget
        subst hget
        rfl
    · intro bp bp2 v w hwf hval hset hget
      cases v <;> simp [optHopPenalty, ConfigValue.wfFor] at hwf
      simp [optHopPenalty, batadv_option_set_hop_penalty, Except.map] at hset
      subst hset
      simp [optHopPenalty, batadv_option_get_hop_penalty, ConfigValue.asU32, Nat.mod_eq_of_lt hwf] at hget
      subst hget
      rfl
    · intro bp bp2 v w hwf hval hset hget
      cases v <;> simp [optLogLevel, ConfigValue.wfFor] at hwf
      simp [optLogLevel, batadv_option_set_log_level, Except.map] at hset
      subst hset
      simp [optLogLevel, batadv_option_get_log_level, ConfigValue.asU32, Nat.mod_eq_of_lt hwf] at hget
      subst hget
      rfl
    · intro bp bp2 v w hwf hval hset hget
      cases v <;> simp [optMulticastMode, ConfigValue.wfFor] at hwf
      simp [optMulticastMode, batadv_option_set_multicast_mode, Except.map] at hset
      subst hset
      simp [optMulticastMode, batadv_option_get_multicast_mode, ConfigValue.asBool] at hget
      subst hget
      rfl
    · intro bp bp2 v w hwf hval hset hget
      cases v <;> simp [optNetworkCoding, ConfigValue.wfFor] at hwf
      simp [optNetworkCoding, batadv_option_set_network_coding, Except.map] at hset
      subst hset
      simp [optNetworkCoding, batadv_option_get_network_coding, ConfigValue.asBool] at hget
      subst hget
      rfl
    · intro bp bp2 v w hwf hval hset hget
      cases v <;> simp [optIsolationMark, ConfigValue.wfFor] at hwf
      simp [optIsolationMark, batadv_option_set_isolation_mark, Except.map] at hset
      subst hset
      simp [optIsolationMark, batadv_option_get_isolation_mark, ConfigValue.asU32, Nat.mod_eq_of_lt hwf] at hget
      subst hget
      rfl
    · intro bp bp2 v w hwf hval hset hget
      cases v <;> simp [optIsolationMask, ConfigValue.wfFor] at hwf
      simp [optIsolationMask, batadv_option_set_isolation_mask, Except.map] at hset
      subst hset
      simp [optIsolationMask, batadv_option_get_isolation_mask, ConfigValue.asU32, Nat.mod_eq_of_lt hwf] at hget
      subst hget
      rfl
    · intro bp bp2 v w hwf hval hset hget
      cases v <;> simp [optOrigInterval, ConfigValue.wfFor] at hwf
      simp [optOrigInterval, batadv_option_set_orig_interval, Except.map] at hset
      subst hset
      simp [optOrigInterval, batadv_option_get_orig_interval, ConfigValue.asU32, Nat.mod_eq_of_lt hwf] at hget
      subst hget
      rfl

  · intro opt hopt
    fin_cases hopt
    · intro bp bp2 hif hif2 v w hwf hval hset hget
      cases v <;> simp [hardifOptElpInterval, ConfigValue.wfFor] at hwf
      simp [hardifOptElpInterval, batadv_option_hardif_set_elp_interval, Except.map] at hset
      obtain ⟨h1, h2⟩ := hset
      subst h1
      subst h2
      simp [hardifOptElpInterval, batadv_option_hardif_get_elp_interval, ConfigValue.asU32, Nat.mod_eq_of_lt hwf] at hget
      subst hget
      rfl
    · intro bp bp2 hif hif2 v w hwf hval hset hget
      cases v <;> simp [hardifOptThroughputOverride, ConfigValue.wfFor] at hwf
      simp [hardifOptThroughputOverride, batadv_option_hardif_set_tp_override, Except.map] at hset
      obtain ⟨h1, h2⟩ := hset
      subst h1
      subst h2
      simp [hardifOptThroughputOverride, batadv_option_hardif_get_tp_override, ConfigValue.asU32, Nat.mod_eq_of_lt hwf] at hget
      subst hget
      rfl

  · intro opt hopt
    fin_cases hopt
    · intro bp bp2 vl vl2 v w hwf hval hset hget
      cases v <;> simp [vlanOptApIsolation, ConfigValue.wfFor] at hwf
      simp [vlanOptApIsolation, batadv_option_vlan_set_ap_isolation, Except.map] at hset
      obtain ⟨h1, h2⟩ := hset
      subst h1
      subst h2
      simp [vlanOptApIsolation, batadv_option_vlan_get_ap_isolation,
        ConfigValue.asBool] at hget
      subst hget
      rfl

/-- C6 counterexample: under an algorithm without gateway support, the
gw_mode validator accepts "client" and Set succeeds, but the immediately
following Get fails NotSupported instead of returning the value — so
Set(v)-then-Get() does not return v as the claim states. -/
theorem c6_gw_mode_set_get_cx :
    optGwMode.validate =
      some (fun bp _ v => batadv_option_validate_gw_mode bp v) ∧
    batadv_option_validate_gw_mode sampleNoGwBatPriv
      (.str BATADV_GW_MODE_CLIENT_NAME) = .ok () ∧
    optGwMode.set sampleNoGwBatPriv () (.str BATADV_GW_MODE_CLIENT_NAME) =
      .ok ({ sampleNoGwBatPriv with gw_mode := .client }, ()) ∧
    optGwMode.get { sampleNoGwBatPriv with gw_mode := .client } () =
      .error .EOPNOTSUPP :=
  ⟨rfl, by decide, by decide, by decide⟩

/-- C6 witness: the round trip applied to hop_penalty at value 200, which
its validator accepts. -/
theorem c6_set_get_roundtrip_witness :
    optHopPenalty.set sampleBatPriv () (.vu32 200) =
      .ok ({ sampleBatPriv with hop_penalty := 200 }, ()) ∧
    optHopPenalty.get { sampleBatPriv with hop_penalty := 200 } () =
      .ok (.vu32 200) ∧
    (ConfigValue.vu32 200 : ConfigValue) = .vu32 200 :=
  ⟨by decide, by decide,
   c6_set_get_roundtrip.1 optHopPenalty (by simp [softif_options])
     sampleBatPriv { sampleBatPriv with hop_penalty := 200 }
     (.vu32 200) (.vu32 200) (by decide)
     (by intro f hf; cases hf; decide) (by decide) (by decide)⟩

end Batadv
